import Mathlib

/-!
Verification development for the optimizer ask/tell state machines of
src/nevergrad/optimization/optimizerlib.py.

Conventions of the shallow embedding:

* Python floats are idealized as exact rationals (every IEEE float value is a
  rational number); quantities built from transcendental functions
  (exp, log, sqrt, non-integer powers) live in the real numbers.
* numpy vectors and tuples are lists; a candidate point is a list of numbers.
* Code that can raise (assert failures, KeyError, IndexError, ValueError)
  returns Except or Option; a returned Except.error models a raised exception.
* Randomness is made explicit: every random draw of the source is an argument
  of the embedded function (an oracle), so each embedded function is the
  deterministic kernel of the corresponding source method.
* The module base (class base.Optimizer with its archive and current_bests
  bookkeeping), the mutations module, and the external solvers (cma, scipy)
  are not part of the given source tree; where one of their values flows into
  the embedded code it is passed as an argument (for example the current
  pessimistic mean maintained by base.Optimizer, or the outcome of the
  external CMA solver call).
-/

/-! ## Generic helpers -/

/-- Stable insertion of an element into an already sorted list: the element is
placed before the first entry that it compares less-or-equal to, hence after
every strictly smaller entry and before every entry equal to it. -/
def insertStable (le : α → α → Bool) (a : α) : List α → List α
  | [] => [a]
  | b :: bs => if le a b then a :: b :: bs else b :: insertStable le a bs

/-- Stable sort (insertion sort).  Python's builtin sorted is a stable sort
for the same total preorder, and all stable sorts of a list under one
comparator agree, so this computes the list produced by the source's
sorted(zip(fitness, population, sigma)).  For the comparators used below the
order is moreover antisymmetric, so stability is not even needed for
agreement. -/
def stableSort (le : α → α → Bool) : List α → List α
  | [] => []
  | a :: as => insertStable le a (stableSort le as)

/-- Pointwise sum of two rational vectors (numpy a + b). -/
def qvAdd (u v : List ℚ) : List ℚ := List.zipWith (· + ·) u v

/-- Scalar times rational vector (numpy c * a). -/
def qvSmul (c : ℚ) (v : List ℚ) : List ℚ := v.map (fun x => c * x)

/-! ## Self-adaptive single-point optimizer (class _OnePlusOne) -/

/-- Noise handling configuration of ParametrizedOnePlusOne: either a bare
strategy name or a pair of a strategy name and a coefficient. -/
inductive NoiseHandling
  | plain (strategy : String)
  | withCoef (strategy : String) (coef : ℚ)

/-- Configuration held by ParametrizedOnePlusOne (fields noise_handling,
mutation, crossover). -/
structure OnePlusOneParams where
  noiseHandling : Option NoiseHandling
  mutation : String
  crossover : Bool

/-- Mutable state of a _OnePlusOne instance that its own methods touch:
the configuration and the scalar step size _sigma (initialized to 1). -/
structure OnePlusOneState where
  params : OnePlusOneParams
  sigma : ℚ

/-- Embedding of _OnePlusOne._internal_tell (optimizerlib.py lines 77-79):
multiply _sigma by 2 when the told value is less than or equal to the current
pessimistic best mean, by 0.84 otherwise.  The source performs this update on
every tell, whatever the configured mutation kind.  The pessimistic mean is
the value of self.current_bests pessimistic .mean at call time; that
bookkeeping lives in base.Optimizer, outside the given sources, so it enters
here as an argument. -/
def onePlusOneInternalTell (st : OnePlusOneState) (pessimisticMean : ℚ)
    (value : ℚ) : OnePlusOneState :=
  { st with sigma := st.sigma * (if value ≤ pessimisticMean then 2 else 0.84) }

/-- Random draws and external-module results consumed by
_OnePlusOne._internal_ask, passed in as oracles: a uniformly chosen archived
point, the result of mutations.crossover, standard normal and standard Cauchy
vectors, and the result of the external discrete mutation operators keyed by
mutation name (module mutations, outside the given sources). -/
structure OnePlusOneAskOracle where
  archiveSample : List ℚ
  crossoverSample : List ℚ
  gauss : List ℚ
  cauchy : List ℚ
  extMutation : String → List ℚ

/-- Embedding of _OnePlusOne._internal_ask (optimizerlib.py lines 43-75).
Arguments numAsk, archiveSize, pessimisticBest and optimisticBest are the
values of self._num_ask, len(self.archive) and the two current_bests points
maintained by base.Optimizer.  An unknown mutation name raises KeyError in
the source dictionary lookup, embedded as an error. -/
def onePlusOneInternalAsk (dimension : ℕ) (st : OnePlusOneState) (numAsk : ℕ)
    (archiveSize : ℕ) (pessimisticBest optimisticBest : List ℚ)
    (o : OnePlusOneAskOracle) : Except String (List ℚ) :=
  if numAsk = 0 then .ok (List.replicate dimension 0)
  else
    let noisy : Option (List ℚ) :=
      match st.params.noiseHandling with
      | none => none
      | some nh =>
        let coef : ℚ := match nh with | .plain _ => 0.05 | .withCoef _ c => c
        let strategy := match nh with | .plain s => s | .withCoef s _ => s
        let limit : ℚ := coef * (archiveSize : ℚ) ^ 3
        if (numAsk : ℚ) ≤ limit then
          if strategy = "cubic" ∨ strategy = "random" then some o.archiveSample
          else if strategy = "optimistic" then some optimisticBest
          else none
        else none
    match noisy with
    | some p => .ok p
    | none =>
      if st.params.crossover ∧ numAsk % 2 = 1 ∧ 2 < archiveSize then
        .ok o.crossoverSample
      else
        match st.params.mutation with
        | "gaussian" => .ok (qvAdd pessimisticBest (qvSmul st.sigma o.gauss))
        | "cauchy" => .ok (qvAdd pessimisticBest (qvSmul st.sigma o.cauchy))
        | "crossover" =>
          if numAsk % 2 = 0 ∨ archiveSize < 3 then
            .ok (o.extMutation ("portfolio"))
          else .ok o.crossoverSample
        | m =>
          if m = "discrete" ∨ m = "fastga" ∨ m = "doublefastga" ∨
              m = "portfolio" then
            .ok (o.extMutation m)
          else .error ("KeyError: unknown mutation")

/-! ## External-solver-backed optimizer (class CMA) -/

/-- Mutable state of a CMA instance that its tell path touches: whether the
external solver object self.es has been created (es is None ↔ esInit =
false), the solver population size, and the tell buffers listx and listy.
The solver object itself is the external cma package, outside the given
sources, so only its existence flag and its popsize are recorded. -/
structure CMAState where
  esInit : Bool
  popsize : ℕ
  listx : List (List ℚ)
  listy : List ℚ

/-- Embedding of CMA._internal_tell (optimizerlib.py lines 182-194).  The
external call self.es.tell(listx, listy) can raise RuntimeError; its outcome
is the oracle argument accept (true = the solver accepted the batch).  On
RuntimeError the source executes pass, so the buffers are kept; they are
cleared only in the else branch taken on success. -/
def cmaInternalTell (st : CMAState) (accept : Bool) (x : List ℚ) (value : ℚ) :
    CMAState :=
  let st1 := { st with esInit := true }
  let lx := st1.listx ++ [x]
  let ly := st1.listy ++ [value]
  if st1.popsize ≤ lx.length then
    if accept then { st1 with listx := [], listy := [] }
    else { st1 with listx := lx, listy := ly }
  else { st1 with listx := lx, listy := ly }

/-- Outcome of a Python call: either an exception was raised or a value was
returned normally. -/
inductive PyOutcome (α : Type)
  | raised (msg : String)
  | returned (v : α)
deriving DecidableEq

/-- Value returned by CMA._internal_provide_recommendation: either the
RuntimeError exception object that the source returns (it writes return, not
raise) or a point from the external solver. -/
inductive CMARecValue
  | exnObject (msg : String)
  | point (x : List ℚ)
deriving DecidableEq

/-- Embedding of CMA._internal_provide_recommendation (optimizerlib.py lines
196-199).  When self.es is None the source executes
return RuntimeError(...), which returns the exception object as an ordinary
value instead of raising it; otherwise it returns self.es.result.xbest,
whose value comes from the external solver and is passed as the oracle
argument xbest.  Being a plain function of the state, it mutates nothing. -/
def cmaInternalProvideRecommendation (st : CMAState) (xbest : List ℚ) :
    PyOutcome CMARecValue :=
  if st.esInit = false then
    .returned (.exnObject
      ("Either ask or tell method should have been called before"))
  else .returned (.point xbest)

/-- Embedding of CMA.__init__ as far as the fields above are concerned:
es starts out None and both buffers start empty.  The population size
max(num_workers, 4 + int(3 log d)) involves a real logarithm; it is kept
abstract here by taking the computed popsize as an argument, since no claim
depends on its numeric value. -/
def cmaInit (popsize : ℕ) : CMAState :=
  { esInit := false, popsize := popsize, listx := [], listy := [] }

/-! ## Evolution-strategy family (classes EDA, PCEDA, TBPSA) -/

/-- Python lexicographic strict comparison of two numeric tuples: first
differing coordinate decides; a strict prefix is smaller. -/
def qListLt : List ℚ → List ℚ → Bool
  | [], [] => false
  | [], _ :: _ => true
  | _ :: _, [] => false
  | a :: as, b :: bs =>
    if a < b then true else if b < a then false else qListLt as bs

/-- Python comparison of the triples (fitness, point, step size) zipped by
the source before sorting: lexicographic on the triple, with the point
compared as a tuple. -/
def tripleLe (a b : ℚ × List ℚ × ℚ) : Bool :=
  if a.1 < b.1 then true
  else if b.1 < a.1 then false
  else if qListLt a.2.1 b.2.1 then true
  else if qListLt b.2.1 a.2.1 then false
  else a.2.2 ≤ b.2.2

/-- The source's sorted(zip(fitness, population, sigma)): the evaluated
cohort as (fitness, point, step size) triples, sorted ascending. -/
def sortCohort (fitness : List ℚ) (pop : List (List ℚ)) (sigma : List ℚ) :
    List (ℚ × List ℚ × ℚ) :=
  stableSort tripleLe (List.zip fitness (List.zip pop sigma))

/-- Mean of a list of numbers, dividing by its length. -/
def qMean (l : List ℚ) : ℚ := l.sum / (l.length : ℚ)

/-- Population variance (numpy.std squared, ddof = 0). -/
def popVar (l : List ℚ) : ℚ :=
  (l.map (fun x => (x - qMean l) ^ 2)).sum / (l.length : ℚ)

/-- numpy.std: the population standard deviation (ddof = 0). -/
noncomputable def npStd (l : List ℚ) : ℝ := Real.sqrt ((popVar l : ℚ) : ℝ)

/-- Column mean over a population: mean of coordinate i. -/
def colMean (pop : List (List ℚ)) (i : ℕ) : ℚ :=
  (pop.map (fun p => p.getD i 0)).sum / (pop.length : ℚ)

/-- Entry (i, j) of numpy.cov of the transposed population matrix: the
sample covariance (ddof = 1) between coordinates i and j over the
population. -/
def covEntry (pop : List (List ℚ)) (i j : ℕ) : ℚ :=
  (pop.map (fun p =>
    (p.getD i 0 - colMean pop i) * (p.getD j 0 - colMean pop j))).sum /
    ((pop.length : ℚ) - 1)

/-- The source's new parent sum(asarray(pop[i]) for i in range(mu)) / mu:
coordinatewise mean of the first mu points of the sorted cohort. -/
def centerOfBest (dimension mu : ℕ) (pop : List (List ℚ)) : List ℚ :=
  ((pop.take mu).foldl qvAdd (List.replicate dimension 0)).map
    (fun x => x / (mu : ℚ))

/-- The source's step-size re-estimation
exp(sum(log(sigma_i) for i in range(mu)) / mu): the geometric mean of the
first mu step sizes of the sorted cohort. -/
noncomputable def geoMeanSigma (mu : ℕ) (sigmas : List ℚ) : ℝ :=
  Real.exp ((((sigmas.take mu).map (fun s => Real.log ((s : ℚ) : ℝ))).sum) /
    (mu : ℝ))

/-- Idealized IEEE double value: an exact finite real, an infinity, or nan.
Signed zeros are not distinguished; in the adaptation block every zero
divisor is the +0.0 produced by numpy.sqrt, so the collapsed sign never
changes any outcome below. -/
inductive PyFloat
  | fin (x : ℝ)
  | pinf
  | ninf
  | nan

open Classical in
/-- IEEE division as numpy computes it on float64 scalars (no exception):
nan propagates; finite / 0 is nan when the dividend is 0 and a signed
infinity otherwise; finite / infinity is 0; infinity / finite keeps the
sign; infinity / infinity is nan. -/
noncomputable def pfDiv : PyFloat → PyFloat → PyFloat
  | .nan, _ => .nan
  | _, .nan => .nan
  | .fin a, .fin b =>
    if b = 0 then (if a = 0 then .nan else if 0 < a then .pinf else .ninf)
    else .fin (a / b)
  | .fin _, .pinf => .fin 0
  | .fin _, .ninf => .fin 0
  | .pinf, .fin b => if 0 ≤ b then .pinf else .ninf
  | .ninf, .fin b => if 0 ≤ b then .ninf else .pinf
  | .pinf, .pinf => .nan
  | .pinf, .ninf => .nan
  | .ninf, .pinf => .nan
  | .ninf, .ninf => .nan

/-- IEEE addition: nan propagates, opposite infinities give nan, an
infinity absorbs finite values. -/
noncomputable def pfAdd : PyFloat → PyFloat → PyFloat
  | .nan, _ => .nan
  | _, .nan => .nan
  | .fin a, .fin b => .fin (a + b)
  | .fin _, .pinf => .pinf
  | .pinf, .fin _ => .pinf
  | .fin _, .ninf => .ninf
  | .ninf, .fin _ => .ninf
  | .pinf, .pinf => .pinf
  | .ninf, .ninf => .ninf
  | .pinf, .ninf => .nan
  | .ninf, .pinf => .nan

/-- IEEE subtraction: nan propagates, equal infinities give nan. -/
noncomputable def pfSub : PyFloat → PyFloat → PyFloat
  | .nan, _ => .nan
  | _, .nan => .nan
  | .fin a, .fin b => .fin (a - b)
  | .fin _, .pinf => .ninf
  | .fin _, .ninf => .pinf
  | .pinf, .fin _ => .pinf
  | .ninf, .fin _ => .ninf
  | .pinf, .pinf => .nan
  | .pinf, .ninf => .pinf
  | .ninf, .pinf => .ninf
  | .ninf, .ninf => .nan

/-- IEEE squaring (the source's std ** 2): both infinities square to plus
infinity, nan propagates. -/
noncomputable def pfSq : PyFloat → PyFloat
  | .nan => .nan
  | .pinf => .pinf
  | .ninf => .pinf
  | .fin x => .fin (x ^ 2)

open Classical in
/-- numpy.sqrt on a float64 scalar: nan on nan and on negative arguments
(a warning, not an exception), infinity on plus infinity. -/
noncomputable def pfSqrt : PyFloat → PyFloat
  | .nan => .nan
  | .pinf => .pinf
  | .ninf => .nan
  | .fin x => if x < 0 then .nan else .fin (Real.sqrt x)

/-- IEEE strict comparison (the source's z < 2.): any comparison with nan
is false, minus infinity is below everything other than itself and nan,
plus infinity is below nothing. -/
def pfLt : PyFloat → PyFloat → Prop
  | .nan, _ => False
  | _, .nan => False
  | .ninf, .ninf => False
  | .ninf, _ => True
  | .pinf, _ => False
  | .fin _, .ninf => False
  | .fin x, .fin y => x < y
  | .fin _, .pinf => True

open Classical in
/-- numpy.std of a list of floats: nan on the empty list (numpy emits a
warning and returns nan), otherwise the finite population standard
deviation. -/
noncomputable def pfStd (l : List ℚ) : PyFloat :=
  if l = [] then .nan else .fin (npStd l)

/-- The z statistic of the adaptation block as the source computes it in
floating point: std_i = np.std(fifth_i) / np.sqrt(llambda - 1) and
z = (mean1 - mean2) / np.sqrt(std1 ** 2 + std2 ** 2), all with numpy
float64 scalar semantics.  The means sum(fifth)/float(llambda) are
pure-Python float divisions; for llambda at least 1 - the only case in
which this function is consulted, see popSizeAdaptation - they are exact
finite values. -/
noncomputable def pfZ (llambda : ℕ) (first last : List ℚ) : PyFloat :=
  let std1 := pfDiv (pfStd first) (pfSqrt (.fin ((llambda : ℝ) - 1)))
  let std2 := pfDiv (pfStd last) (pfSqrt (.fin ((llambda : ℝ) - 1)))
  pfDiv
    (.fin (((first.sum : ℚ) : ℝ) / (llambda : ℝ) -
      ((last.sum : ℚ) : ℝ) / (llambda : ℝ)))
    (pfSqrt (pfAdd (pfSq std1) (pfSq std2)))

open Classical in
/-- Embedding of the population-size adaptation block that appears verbatim
in PCEDA, MPCEDA and TBPSA _internal_tell (optimizerlib.py lines 299-317,
351-369 and 465-483): given the fitness archive after appending the told
value, when it has reached 5 lambda entries compare the first lambda values
against the last lambda (indices 4 lambda .. 5 lambda - 1) by the
two-sample z statistic computed in floating point (pfZ above; in particular
two zero-variance fifths give z = nan or a signed infinity, and the
comparison z < 2. is then false unless mean1 < mean2); when the comparison
holds double mu, otherwise set mu to int(0.84 mu) floored at the dimension;
set lambda = 4 mu; when num_workers > 1 raise lambda to at least
num_workers and rebalance mu = lambda // 4; finally clear the archive.
Returns the triple (mu, lambda, archive) after the block, or none for the
degenerate llambda = 0 trigger, where the source's pure-Python mean
division sum(first)/float(llambda) raises ZeroDivisionError.  The
comprehension archive[i] for i in range(lambda) is take lambda, and indices
4 lambda .. 5 lambda - 1 are drop (4 lambda) take lambda; both
comprehensions are in range exactly because the guard
5 lambda <= len(archive) holds. -/
noncomputable def popSizeAdaptation (dimension numWorkers mu llambda : ℕ)
    (archive : List ℚ) : Option (ℕ × ℕ × List ℚ) :=
  if 5 * llambda ≤ archive.length then
    if llambda = 0 then none
    else
      let firstFifth := archive.take llambda
      let lastFifth := (archive.drop (4 * llambda)).take llambda
      let z := pfZ llambda firstFifth lastFifth
      let mu1 : ℕ :=
        if pfLt z (.fin 2) then 2 * mu
        else
          let m := 21 * mu / 25
          if m < dimension then dimension else m
      let llambda1 := 4 * mu1
      if 1 < numWorkers then
        some (max llambda1 numWorkers / 4, max llambda1 numWorkers,
          ([] : List ℚ))
      else some (mu1, llambda1, ([] : List ℚ))
  else some (mu, llambda, archive)

/-- Mutable state of an EDA (or PCEDA) instance: dimension and worker count,
step size sigma, covariance estimate (a function of the two coordinate
indices, identity at construction), selection size mu, population size
lambda, current center, the evaluated cohort (points, step sizes, fitnesses),
the unevaluated cohort (points, step sizes) and the raw fitness archive. -/
structure EDAState where
  dimension : ℕ
  numWorkers : ℕ
  sigma : ℝ
  covariance : ℕ → ℕ → ℚ
  mu : ℕ
  llambda : ℕ
  currentCenter : List ℚ
  evaluatedPopulation : List (List ℚ)
  evaluatedPopulationSigma : List ℚ
  evaluatedPopulationFitness : List ℚ
  unevaluatedPopulation : List (List ℚ)
  unevaluatedPopulationSigma : List ℚ
  archiveFitness : List ℚ

/-- Mutable state of a TBPSA instance: as EDAState but TBPSA maintains no
covariance estimate (its __init__ defines none and its tell never touches
one). -/
structure TBPSAState where
  dimension : ℕ
  numWorkers : ℕ
  sigma : ℝ
  mu : ℕ
  llambda : ℕ
  currentCenter : List ℚ
  evaluatedPopulation : List (List ℚ)
  evaluatedPopulationSigma : List ℚ
  evaluatedPopulationFitness : List ℚ
  unevaluatedPopulation : List (List ℚ)
  unevaluatedPopulationSigma : List ℚ
  archiveFitness : List ℚ

open Classical in
/-- Embedding of EDA._internal_tell (optimizerlib.py lines 265-285): look up
the first exact match of the told point in the unevaluated cohort (the
source's list.index raises ValueError when absent, embedded as none), move it
with its step size and fitness to the evaluated cohort; when the evaluated
cohort has reached lambda entries, sort it by (fitness, point, step size),
replace the covariance estimate by 0.1 times the sample covariance of the
full sorted cohort, recompute the center as the coordinatewise mean of the
first mu sorted points, recompute sigma as the geometric mean of the first mu
sorted step sizes, and clear the evaluated cohort. -/
noncomputable def edaInternalTell (st : EDAState) (x : List ℚ) (value : ℚ) :
    Option EDAState := do
  let idx ← st.unevaluatedPopulation.findIdx? (fun p => p == x)
  let evalPop := st.evaluatedPopulation ++ [x]
  let evalFit := st.evaluatedPopulationFitness ++ [value]
  let evalSig := st.evaluatedPopulationSigma ++
    [st.unevaluatedPopulationSigma.getD idx 0]
  let uneval := st.unevaluatedPopulation.eraseIdx idx
  let unevalSig := st.unevaluatedPopulationSigma.eraseIdx idx
  if st.llambda ≤ evalPop.length then
    let sorted := sortCohort evalFit evalPop evalSig
    let sortedPop := sorted.map (fun t => t.2.1)
    let sortedSig := sorted.map (fun t => t.2.2)
    some { st with
      unevaluatedPopulation := uneval
      unevaluatedPopulationSigma := unevalSig
      covariance := fun i j => 0.1 * covEntry sortedPop i j
      currentCenter := centerOfBest st.dimension st.mu sortedPop
      sigma := geoMeanSigma st.mu sortedSig
      evaluatedPopulation := []
      evaluatedPopulationSigma := []
      evaluatedPopulationFitness := [] }
  else
    some { st with
      unevaluatedPopulation := uneval
      unevaluatedPopulationSigma := unevalSig
      evaluatedPopulation := evalPop
      evaluatedPopulationSigma := evalSig
      evaluatedPopulationFitness := evalFit }

open Classical in
/-- Embedding of TBPSA._internal_tell (optimizerlib.py lines 463-502): append
the told value to the fitness archive and run the population-size adaptation
block (which fires exactly when the archive has reached 5 lambda entries),
then move the told point from the unevaluated to the evaluated cohort and,
when the evaluated cohort has reached lambda entries (the possibly updated
lambda), sort it, recompute center and sigma from the first mu sorted
entries, and clear the evaluated cohort.  TBPSA maintains no covariance. -/
noncomputable def tbpsaInternalTell (st : TBPSAState) (x : List ℚ)
    (value : ℚ) : Option TBPSAState := do
  let archive1 := st.archiveFitness ++ [value]
  let adapted ←
    popSizeAdaptation st.dimension st.numWorkers st.mu st.llambda archive1
  let mu1 := adapted.1
  let llambda1 := adapted.2.1
  let archive2 := adapted.2.2
  let idx ← st.unevaluatedPopulation.findIdx? (fun p => p == x)
  let evalPop := st.evaluatedPopulation ++ [x]
  let evalFit := st.evaluatedPopulationFitness ++ [value]
  let evalSig := st.evaluatedPopulationSigma ++
    [st.unevaluatedPopulationSigma.getD idx 0]
  let uneval := st.unevaluatedPopulation.eraseIdx idx
  let unevalSig := st.unevaluatedPopulationSigma.eraseIdx idx
  if llambda1 ≤ evalPop.length then
    let sorted := sortCohort evalFit evalPop evalSig
    let sortedPop := sorted.map (fun t => t.2.1)
    let sortedSig := sorted.map (fun t => t.2.2)
    some { st with
      mu := mu1
      llambda := llambda1
      archiveFitness := archive2
      unevaluatedPopulation := uneval
      unevaluatedPopulationSigma := unevalSig
      currentCenter := centerOfBest st.dimension mu1 sortedPop
      sigma := geoMeanSigma mu1 sortedSig
      evaluatedPopulation := []
      evaluatedPopulationSigma := []
      evaluatedPopulationFitness := [] }
  else
    some { st with
      mu := mu1
      llambda := llambda1
      archiveFitness := archive2
      unevaluatedPopulation := uneval
      unevaluatedPopulationSigma := unevalSig
      evaluatedPopulation := evalPop
      evaluatedPopulationSigma := evalSig
      evaluatedPopulationFitness := evalFit }

open Classical in
/-- Embedding of PCEDA._internal_tell (optimizerlib.py lines 297-337): the
population-size adaptation block followed by the cohort logic of EDA, except
that the covariance estimate is replaced outright by the sample covariance of
the full sorted cohort (no 0.1 factor). -/
noncomputable def pcedaInternalTell (st : EDAState) (x : List ℚ)
    (value : ℚ) : Option EDAState := do
  let archive1 := st.archiveFitness ++ [value]
  let adapted ←
    popSizeAdaptation st.dimension st.numWorkers st.mu st.llambda archive1
  let mu1 := adapted.1
  let llambda1 := adapted.2.1
  let archive2 := adapted.2.2
  let idx ← st.unevaluatedPopulation.findIdx? (fun p => p == x)
  let evalPop := st.evaluatedPopulation ++ [x]
  let evalFit := st.evaluatedPopulationFitness ++ [value]
  let evalSig := st.evaluatedPopulationSigma ++
    [st.unevaluatedPopulationSigma.getD idx 0]
  let uneval := st.unevaluatedPopulation.eraseIdx idx
  let unevalSig := st.unevaluatedPopulationSigma.eraseIdx idx
  if llambda1 ≤ evalPop.length then
    let sorted := sortCohort evalFit evalPop evalSig
    let sortedPop := sorted.map (fun t => t.2.1)
    let sortedSig := sorted.map (fun t => t.2.2)
    some { st with
      mu := mu1
      llambda := llambda1
      archiveFitness := archive2
      unevaluatedPopulation := uneval
      unevaluatedPopulationSigma := unevalSig
      covariance := fun i j => covEntry sortedPop i j
      currentCenter := centerOfBest st.dimension mu1 sortedPop
      sigma := geoMeanSigma mu1 sortedSig
      evaluatedPopulation := []
      evaluatedPopulationSigma := []
      evaluatedPopulationFitness := [] }
  else
    some { st with
      mu := mu1
      llambda := llambda1
      archiveFitness := archive2
      unevaluatedPopulation := uneval
      unevaluatedPopulationSigma := unevalSig
      evaluatedPopulation := evalPop
      evaluatedPopulationSigma := evalSig
      evaluatedPopulationFitness := evalFit }

/-! ## Particle-swarm optimizer (class PSO) -/

/-- Comparison of a finite float against a float that may be the
float inf sentinel encoded as none: anything is below infinity. -/
def ltInf (v : ℝ) (o : Option ℝ) : Prop := ∀ w ∈ o, v < w

/-- Mutable state of a PSO instance.  Positions live in the open unit cube;
the location map self.locations (a defaultdict, so absent keys read as the
empty list) maps an emitted real-space point to the ordered list of particle
slots that produced it; the queue is the deque of slots not yet asked this
round (front at the head of the list).  In pop_best_fitness and
pso_best_fitness the sentinel float inf of __init__ is encoded as none; in
pop_fitness, none encodes the Python None marking a particle never yet told.
The constants omega, phip, phig, eps and the round index only drive
_internal_ask (which also appends the asking slot at the tail of
self.locations[guy], lines 574 and 591) and are not needed by the tell
path embedded here. -/
structure PSOState where
  dimension : ℕ
  llambda : ℕ
  pop : List (List ℝ)
  popSpeed : List (List ℝ)
  popBest : List (List ℝ)
  popBestFitness : List (Option ℝ)
  popFitness : List (Option ℝ)
  psoBest : Option (List ℝ)
  psoBestFitness : Option ℝ
  locations : List ℝ → List ℕ
  queue : List ℕ

open Classical in
/-- Embedding of PSO._internal_tell (optimizerlib.py lines 598-614): the
told point must have a non-empty pending-slot queue in self.locations
(assert self.locations[x]); the head slot is taken, the recomputed real-space
point of that slot must equal x (assert x == point, with to_real the external
scipy inverse normal CDF, passed as the argument toReal); the slot's fitness
is recorded; the global and personal bests are updated on improvement (the
global update asserts the position lies strictly inside the unit cube, where
Python max/min of an empty position would raise); exactly the head entry of
self.locations[x] is deleted and the slot is appended at the back of the
queue. -/
noncomputable def psoInternalTell (toReal : List ℝ → List ℝ) (st : PSOState)
    (x : List ℝ) (value : ℝ) : Except String PSOState :=
  if st.locations x = [] then .error ("AssertionError: self.locations[x]")
  else
    let location := (st.locations x).headD 0
    let pos := st.pop.getD location []
    let point := toReal pos
    if x ≠ point then .error ("AssertionError: x == point")
    else
      let popFitness1 := st.popFitness.set location (some value)
      let globalStep : Except String (Option (List ℝ) × Option ℝ) :=
        if ltInf value st.psoBestFitness then
          match pos.max?, pos.min? with
          | some mx, some mn =>
            if mx < 1 then
              if 0 < mn then .ok (some pos, some value)
              else .error ("AssertionError: min(self.pop[location]) > 0.")
            else .error ("AssertionError: max(self.pop[location]) < 1.")
          | _, _ => .error ("ValueError: empty position")
        else .ok (st.psoBest, st.psoBestFitness)
      match globalStep with
      | .error e => .error e
      | .ok g =>
        let localImproved := ltInf value (st.popBestFitness.getD location none)
        let popBest1 :=
          if localImproved then st.popBest.set location pos else st.popBest
        let popBestFitness1 :=
          if localImproved then st.popBestFitness.set location (some value)
          else st.popBestFitness
        .ok { st with
          popFitness := popFitness1
          psoBest := g.1
          psoBestFitness := g.2
          popBest := popBest1
          popBestFitness := popBestFitness1
          locations := fun y =>
            if y = x then (st.locations x).tail else st.locations y
          queue := st.queue ++ [location] }

/-! ## Stochastic-approximation optimizer (class SPSA) -/

/-- Pointwise sum of two real vectors. -/
noncomputable def rvAdd (u v : List ℝ) : List ℝ := List.zipWith (· + ·) u v

/-- Pointwise difference of two real vectors. -/
noncomputable def rvSub (u v : List ℝ) : List ℝ := List.zipWith (· - ·) u v

/-- Scalar times real vector. -/
noncomputable def rvSmul (c : ℝ) (v : List ℝ) : List ℝ := v.map (fun x => c * x)

/-- Real vector divided by a scalar. -/
noncomputable def rvDivS (v : List ℝ) (c : ℝ) : List ℝ := v.map (fun x => x / c)

/-- Mutable state of an SPSA instance.  The float nan placeholder that
__init__ puts into self.delta before any perturbation has been drawn is
encoded as none (it is overwritten by the first even-index ask before any
read on every run that respects the ask/tell protocol). -/
structure SPSAState where
  dimension : ℕ
  init : Bool
  idx : ℕ
  delta : Option (List ℝ)
  ym : Option ℝ
  yp : Option ℝ
  t : List ℝ
  avg : List ℝ
  a : ℝ
  c : ℝ
  A : ℝ

/-- Embedding of SPSA.ck (optimizerlib.py lines 662-664), the perturbation
gain c_k = c / (k // 2 + 1) ** 0.101. -/
noncomputable def spsaCk (st : SPSAState) (k : ℕ) : ℝ :=
  st.c / ((k / 2 + 1 : ℕ) : ℝ) ^ (0.101 : ℝ)

/-- Embedding of SPSA.ak (optimizerlib.py lines 666-668), the learning rate
a_k = a / (k // 2 + 1 + A) ** 0.602. -/
noncomputable def spsaAk (st : SPSAState) (k : ℕ) : ℝ :=
  st.a / (((k / 2 + 1 : ℕ) : ℝ) + st.A) ^ (0.602 : ℝ)

/-- Embedding of SPSA._internal_ask (optimizerlib.py lines 670-679).  The
fresh random ±1 perturbation 2 * rng.randint(2, size=dimension) - 1 drawn in
the even branch is the oracle argument freshDelta.  For even self.idx and
init already cleared, the source asserts yp and ym are not None (none here
gives none) and first updates t by the gradient step and avg by the running
average step, then draws the fresh perturbation and returns t - ck(k) * delta;
for odd self.idx it returns t + ck(k) * delta with the stored delta and
changes no state.  The ask itself never advances self.idx. -/
noncomputable def spsaInternalAsk (st : SPSAState) (freshDelta : List ℝ) :
    Option (SPSAState × List ℝ) :=
  let k := st.idx
  if k % 2 = 0 then
    let stepped : Option SPSAState :=
      if st.init then some st
      else
        match st.yp, st.ym with
        | some yp, some ym =>
          let t1 := rvSub st.t
            (rvSmul (spsaAk st k * (yp - ym) / 2 / spsaCk st k)
              (st.delta.getD []))
          let avg1 := rvAdd st.avg
            (rvDivS (rvSub t1 st.avg) ((k / 2 + 1 : ℕ) : ℝ))
          some { st with t := t1, avg := avg1 }
        | _, _ => none
    match stepped with
    | none => none
    | some st1 =>
      let st2 := { st1 with delta := some freshDelta }
      some (st2, rvSub st2.t (rvSmul (spsaCk st2 k) freshDelta))
  else
    some (st, rvAdd st.t (rvSmul (spsaCk st k) (st.delta.getD [])))

/-- Embedding of SPSA._internal_tell (optimizerlib.py lines 681-685): store
the value into slot ym when self.idx is even and into yp when it is odd,
advance self.idx by one, and clear the init flag once both slots are
filled. -/
noncomputable def spsaInternalTell (st : SPSAState) (value : ℝ) : SPSAState :=
  let st1 :=
    if st.idx % 2 = 0 then { st with ym := some value }
    else { st with yp := some value }
  let st2 := { st1 with idx := st1.idx + 1 }
  if st2.init ∧ st2.yp.isSome ∧ st2.ym.isSome then { st2 with init := false }
  else st2

/-- Embedding of SPSA.__init__ (optimizerlib.py lines 639-660) for the fields
above: t and avg start at the origin, idx at 0, init set, no evaluations
stored, A = 10 without a budget and max(10, budget // 20) with one,
c = 0.1 and a = 0.00001. -/
noncomputable def spsaInit (dimension : ℕ) (budget : Option ℕ) : SPSAState :=
  { dimension := dimension, init := true, idx := 0, delta := none,
    ym := none, yp := none,
    t := List.replicate dimension 0, avg := List.replicate dimension 0,
    a := 0.00001, c := 0.1,
    A := (match budget with
          | none => (10 : ℝ)
          | some b => ((max 10 (b / 20) : ℕ) : ℝ)) }

/-! ## Portfolio / competence-map meta-optimizers -/

/-- Tag for a constructed sub-optimizer together with the construction
arguments the portfolio passes it.  The sub-optimizer classes themselves
(TwoPointsDE, LhsDE, ScrHammersleySearch, ScrHaltonSearch, SQP come from
modules outside the given sources; CMA, PSO, OnePlusOne are embedded
elsewhere in this file) act through ask/tell oracles, so only their identity
and budgets matter here. -/
inductive SubOpt
  | cma (budget : Option ℕ) (numWorkers : ℕ)
  | milliCMA (budget : Option ℕ) (numWorkers : ℕ)
  | microCMA (budget : Option ℕ) (numWorkers : ℕ)
  | twoPointsDE (budget : Option ℕ) (numWorkers : ℕ)
  | scrHammersleySearch (budget : Option ℕ) (numWorkers : ℕ)
  | scrHaltonSearch (budget : Option ℕ) (numWorkers : ℕ)
  | lhsDE (budget : Option ℕ) (numWorkers : ℕ)
  | psoOpt (budget : Option ℕ) (numWorkers : ℕ)
  | sqp (budget : Option ℕ) (numWorkers : ℕ)
  | onePlusOneOpt (budget : Option ℕ) (numWorkers : ℕ)
deriving DecidableEq

/-- Mutable state of a Portfolio instance: the sub-optimizer list and the
dispatch table self.who_asked (a defaultdict from emitted point to the FIFO
list of producing sub-optimizer indices; absent keys read as the empty
list).  Indices are integers because ASCMADEthird stores the raw value -1
in this table. -/
structure PortfolioState where
  optims : List SubOpt
  whoAsked : List ℝ → List ℤ

/-- Embedding of Portfolio.__init__ (optimizerlib.py lines 695-703): a None
budget fails the assert; otherwise the three sub-optimizers split the budget
as budget // 3 plus one for the earlier members when the remainder is 1 or
2, and a budget below 12 num_workers replaces the list by a single
ScrHammersleySearch with the whole budget. -/
def portfolioInit (dimension : ℕ) (budget : Option ℕ) (numWorkers : ℕ) :
    Except String PortfolioState :=
  match budget with
  | none => .error ("AssertionError: budget is not None")
  | some b =>
    let optims := [SubOpt.cma (some (b / 3 + (if 0 < b % 3 then 1 else 0)))
                     numWorkers,
                   SubOpt.twoPointsDE
                     (some (b / 3 + (if 1 < b % 3 then 1 else 0))) numWorkers,
                   SubOpt.scrHammersleySearch (some (b / 3)) numWorkers]
    let optims :=
      if b < 12 * numWorkers then
        [SubOpt.scrHammersleySearch (some b) numWorkers]
      else optims
    .ok { optims := optims, whoAsked := fun _ => [] }

open Classical in
/-- Embedding of Portfolio._internal_ask (optimizerlib.py lines 705-709):
round-robin over the sub-optimizers by self._num_ask modulo their number,
delegate (the delegated ask is the oracle subAsk), and append the producing
index at the tail of the dispatch queue of the returned point.  Returns the
new state, the chosen index and the point. -/
noncomputable def portfolioInternalAsk (st : PortfolioState) (numAsk : ℕ)
    (subAsk : ℕ → List ℝ) : PortfolioState × ℕ × List ℝ :=
  let optimIndex := numAsk % st.optims.length
  let individual := subAsk optimIndex
  ({ st with whoAsked := fun y =>
      if y = individual then st.whoAsked y ++ [(optimIndex : ℤ)]
      else st.whoAsked y }, optimIndex, individual)

open Classical in
/-- Embedding of Portfolio._internal_tell (optimizerlib.py lines 711-715):
read the head of the dispatch queue of the told point (on an empty or absent
queue the source's self.who_asked[tx][0] raises IndexError), delete exactly
that head entry, and forward the value to the sub-optimizer at that index
(the forwarding target is returned; the sub-optimizer tell happens in the
respective optimizer and plays no role in the ledger).  The value argument
is only forwarded. -/
noncomputable def portfolioInternalTell (st : PortfolioState) (x : List ℝ)
    (value : ℝ) : Except String (PortfolioState × ℤ) :=
  match st.whoAsked x with
  | [] => .error ("IndexError: list index out of range")
  | i :: rest =>
    .ok ({ st with whoAsked := fun y =>
        if y = x then rest else st.whoAsked y }, i)

/-- Mutable state of a ParaPortfolio (and ParaSQPCMA) instance: sub-optimizer
list, fixed per-slot assignment self.which_optim, and the dispatch table. -/
structure ParaPortfolioState where
  optims : List SubOpt
  whichOptim : List ℕ
  whoAsked : List ℝ → List ℤ

/-- Embedding of the helper intshare(n, m) of ParaPortfolio.__init__
(optimizerlib.py lines 729-735) in closed form: the loop starts from m
copies of n // m and increments the entries left to right until the sum
reaches n, which takes exactly n mod m steps, so entry i ends at
n // m + 1 for i < n mod m and at n // m otherwise. -/
def intshare (n m : ℕ) : List ℕ :=
  (List.range m).map (fun i => n / m + if i < n % m then 1 else 0)

/-- Embedding of ParaPortfolio.__init__ (optimizerlib.py lines 725-746):
after the Portfolio construction (which already rejects a None budget), the
worker slots are shared as intshare(num_workers - 1, 4), the slot map is
nw1 zeros, nw2 ones, nw3 twos, one 3 and nw4 fours, its length must equal
num_workers, and the five sub-optimizers are CMA, TwoPointsDE and PSO
(budgetless, with their worker shares), SQP with budget 1 and
ScrHammersleySearch with budget (budget // len(which_optim)) * nw4.
In the source num_workers - 1 is Python integer subtraction; for
num_workers = 0 both the source and this embedding fail the length
assert. -/
def paraPortfolioInit (dimension : ℕ) (budget : Option ℕ) (numWorkers : ℕ) :
    Except String ParaPortfolioState := do
  let _ ← portfolioInit dimension budget numWorkers
  match budget with
  | none => .error ("AssertionError: budget is not None")
  | some b =>
    let sh := intshare (numWorkers - 1) 4
    let nw1 := sh.getD 0 0
    let nw2 := sh.getD 1 0
    let nw3 := sh.getD 2 0
    let nw4 := sh.getD 3 0
    let whichOptim := List.replicate nw1 0 ++ List.replicate nw2 1 ++
      List.replicate nw3 2 ++ [3] ++ List.replicate nw4 4
    if whichOptim.length = numWorkers then
      .ok { optims := [SubOpt.cma none nw1, SubOpt.twoPointsDE none nw2,
              SubOpt.psoOpt none nw3, SubOpt.sqp (some 1) 1,
              SubOpt.scrHammersleySearch
                (some ((b / whichOptim.length) * nw4)) 1],
            whichOptim := whichOptim, whoAsked := fun _ => [] }
    else .error ("AssertionError: len(which_optim) == num_workers")

/-- Embedding of ParaSQPCMA.__init__ (optimizerlib.py lines 759-773): after
the ParaPortfolio construction, half the workers (num_workers // 2) go to
one budgetless CMA and each remaining worker to an SQP with budget 1; the
slot map is nw zeros followed by 1, 2, ..., num_workers - nw. -/
def paraSQPCMAInit (dimension : ℕ) (budget : Option ℕ) (numWorkers : ℕ) :
    Except String ParaPortfolioState := do
  let _ ← paraPortfolioInit dimension budget numWorkers
  match budget with
  | none => .error ("AssertionError: budget is not None")
  | some _b =>
    let nw := numWorkers / 2
    let whichOptim := List.replicate nw 0 ++
      (List.range (numWorkers - nw)).map (fun i => i + 1)
    if whichOptim.length = numWorkers then
      .ok { optims := SubOpt.cma none nw ::
              List.replicate (numWorkers - nw) (SubOpt.sqp (some 1) 1),
            whichOptim := whichOptim, whoAsked := fun _ => [] }
    else .error ("AssertionError: len(which_optim) == num_workers")

/-- Mutable state of an ASCMADEthird instance (and of the competence-map
classes derived from it): the Portfolio fields plus the remaining
round-robin budget and self.best_optim.  The Python sentinel None of the
type annotation corresponds to none; the source initializer however stores
the integer -1, hence some (-1). -/
structure ASState where
  optims : List SubOpt
  whoAsked : List ℝ → List ℤ
  budgetBeforeChoosing : ℕ
  bestOptim : Option ℤ

/-- Embedding of ASCMADEthird.__init__ (optimizerlib.py lines 780-787): a
None budget fails the Portfolio assert and the local assert; the
sub-optimizers are a budgetless CMA and LhsDE, budget_before_choosing is
budget // 3, and best_optim is initialized to the integer -1 (not to
None). -/
def ascmadeThirdInit (dimension : ℕ) (budget : Option ℕ) (numWorkers : ℕ) :
    Except String ASState := do
  let _ ← portfolioInit dimension budget numWorkers
  match budget with
  | none => .error ("AssertionError: budget is not None")
  | some b =>
    .ok { optims := [SubOpt.cma none numWorkers, SubOpt.lhsDE none numWorkers]
          whoAsked := fun _ => []
          budgetBeforeChoosing := b / 3
          bestOptim := some (-1) }

/-- Embedding of ASCMADEQRthird.__init__ (optimizerlib.py lines 813-817):
as ASCMADEthird with sub-optimizers CMA, LhsDE and ScrHaltonSearch. -/
def ascmadeQRthirdInit (dimension : ℕ) (budget : Option ℕ) (numWorkers : ℕ) :
    Except String ASState := do
  let st ← ascmadeThirdInit dimension budget numWorkers
  .ok { st with optims := [SubOpt.cma none numWorkers,
          SubOpt.lhsDE none numWorkers,
          SubOpt.scrHaltonSearch none numWorkers] }

/-- Embedding of ASCMA2PDEthird.__init__ (optimizerlib.py lines 824-827):
as ASCMADEQRthird with sub-optimizers CMA and TwoPointsDE. -/
def ascma2pdeThirdInit (dimension : ℕ) (budget : Option ℕ) (numWorkers : ℕ) :
    Except String ASState := do
  let st ← ascmadeQRthirdInit dimension budget numWorkers
  .ok { st with optims := [SubOpt.cma none numWorkers,
          SubOpt.twoPointsDE none numWorkers] }

/-- Embedding of CMandAS2.__init__ (optimizerlib.py lines 834-845): after
the ASCMADEthird construction (which already rejects a None budget), the
competence map picks TwoPointsDE with budget_before_choosing = 2 budget,
replaced by OnePlusOne below budget 201, and by three budgetless CMAs with
budget_before_choosing = budget // 10 when budget > 50 dimension or
num_workers < 30. -/
def cmandAS2Init (dimension : ℕ) (budget : Option ℕ) (numWorkers : ℕ) :
    Except String ASState := do
  let st ← ascmadeThirdInit dimension budget numWorkers
  match budget with
  | none => .error ("AssertionError: budget is not None")
  | some b =>
    let st := { st with
      optims := [SubOpt.twoPointsDE none numWorkers]
      budgetBeforeChoosing := 2 * b }
    let st :=
      if b < 201 then
        { st with optims := [SubOpt.onePlusOneOpt none numWorkers] }
      else st
    let st :=
      if 50 * dimension < b ∨ numWorkers < 30 then
        { st with
          optims := [SubOpt.cma none numWorkers,
            SubOpt.cma none numWorkers, SubOpt.cma none numWorkers]
          budgetBeforeChoosing := b / 10 }
      else st
    .ok st

/-- Embedding of CMandAS.__init__ (optimizerlib.py lines 852-863): after the
CMandAS2 construction, TwoPointsDE with budget_before_choosing = 2 budget,
replaced by OnePlusOne (same budget_before_choosing) below budget 201, and
by two budgetless CMAs with budget_before_choosing = budget // 3 when
budget > 50 dimension or num_workers < 30. -/
def cmandASInit (dimension : ℕ) (budget : Option ℕ) (numWorkers : ℕ) :
    Except String ASState := do
  let st ← cmandAS2Init dimension budget numWorkers
  match budget with
  | none => .error ("AssertionError: budget is not None")
  | some b =>
    let st := { st with
      optims := [SubOpt.twoPointsDE none numWorkers]
      budgetBeforeChoosing := 2 * b }
    let st :=
      if b < 201 then
        { st with
          optims := [SubOpt.onePlusOneOpt none numWorkers]
          budgetBeforeChoosing := 2 * b }
      else st
    let st :=
      if 50 * dimension < b ∨ numWorkers < 30 then
        { st with
          optims := [SubOpt.cma none numWorkers,
            SubOpt.cma none numWorkers]
          budgetBeforeChoosing := b / 3 }
      else st
    .ok st

/-- Embedding of CM.__init__ (optimizerlib.py lines 870-878): after the
CMandAS2 construction, TwoPointsDE with budget_before_choosing = 2 budget,
replaced by OnePlusOne below budget 201 and by a single budgetless CMA when
budget > 50 dimension (budget_before_choosing left at 2 budget in both
replacement branches). -/
def cmInit (dimension : ℕ) (budget : Option ℕ) (numWorkers : ℕ) :
    Except String ASState := do
  let st ← cmandAS2Init dimension budget numWorkers
  match budget with
  | none => .error ("AssertionError: budget is not None")
  | some b =>
    let st := { st with
      optims := [SubOpt.twoPointsDE none numWorkers]
      budgetBeforeChoosing := 2 * b }
    let st :=
      if b < 201 then
        { st with optims := [SubOpt.onePlusOneOpt none numWorkers] }
      else st
    let st :=
      if 50 * dimension < b then
        { st with optims := [SubOpt.cma none numWorkers] }
      else st
    .ok st

/-- Embedding of MultiCMA.__init__ (optimizerlib.py lines 885-891): after
the CM construction, three identical budgetless CMAs with
budget_before_choosing = budget // 10. -/
def multiCMAInit (dimension : ℕ) (budget : Option ℕ) (numWorkers : ℕ) :
    Except String ASState := do
  let st ← cmInit dimension budget numWorkers
  match budget with
  | none => .error ("AssertionError: budget is not None")
  | some b =>
    .ok { st with
      optims := [SubOpt.cma none numWorkers,
        SubOpt.cma none numWorkers, SubOpt.cma none numWorkers]
      budgetBeforeChoosing := b / 10 }

/-- Embedding of TripleCMA.__init__ (optimizerlib.py lines 898-904): after
the CM construction, three identical budgetless CMAs with
budget_before_choosing = budget // 3. -/
def tripleCMAInit (dimension : ℕ) (budget : Option ℕ) (numWorkers : ℕ) :
    Except String ASState := do
  let st ← cmInit dimension budget numWorkers
  match budget with
  | none => .error ("AssertionError: budget is not None")
  | some b =>
    .ok { st with
      optims := [SubOpt.cma none numWorkers,
        SubOpt.cma none numWorkers, SubOpt.cma none numWorkers]
      budgetBeforeChoosing := b / 3 }

/-- Embedding of MultiScaleCMA.__init__ (optimizerlib.py lines 911-917):
after the CM construction, a CMA, a MilliCMA and a MicroCMA (all
budgetless) with budget_before_choosing = budget // 3; the budget assert
sits between the two assignments but a None budget has already been
rejected by the CM chain. -/
def multiScaleCMAInit (dimension : ℕ) (budget : Option ℕ) (numWorkers : ℕ) :
    Except String ASState := do
  let st ← cmInit dimension budget numWorkers
  match budget with
  | none => .error ("AssertionError: budget is not None")
  | some b =>
    .ok { st with
      optims := [SubOpt.cma none numWorkers,
        SubOpt.milliCMA none numWorkers, SubOpt.microCMA none numWorkers]
      budgetBeforeChoosing := b / 3 }

/-- Python list indexing with negative-index wraparound: optims[-1] is the
last element. -/
def pyListIndex (len : ℕ) (i : ℤ) : ℕ :=
  (if i < 0 then (len : ℤ) + i else i).toNat

open Classical in
/-- Embedding of the selection loop of ASCMADEthird._internal_ask
(optimizerlib.py lines 795-801): best_value starts at inf (encoded none)
and optim_index at -1; every sub-optimizer whose pessimistic estimate val
satisfies not (val > best_value) becomes the new choice, so ties go to the
later optimizer.  The estimates are the values
optim.current_bests pessimistic .get_estimation pessimistic of the
sub-optimizers, maintained by base.Optimizer outside the given sources. -/
noncomputable def selectBestOptim (estimates : List ℝ) : ℤ :=
  (estimates.enum.foldl
    (fun acc p =>
      match acc.1 with
      | none => (some p.2, (p.1 : ℤ))
      | some bv => if ¬ (bv < p.2) then (some p.2, (p.1 : ℤ)) else acc)
    ((none : Option ℝ), (-1 : ℤ))).2

open Classical in
/-- Embedding of ASCMADEthird._internal_ask (optimizerlib.py lines 789-806):
while budget_before_choosing is positive, decrement it and round-robin by
self._num_ask modulo the number of sub-optimizers; afterwards, run the
selection loop only when best_optim is None (which the initializer never
sets), else keep the stored best_optim; delegate the ask to
optims[optim_index] (Python indexing, so -1 is the last sub-optimizer) and
append the raw chosen index at the tail of the dispatch queue of the
returned point.  Returns the new state, the raw chosen index and the
point. -/
noncomputable def ascmadeInternalAsk (st : ASState) (numAsk : ℕ)
    (estimates : List ℝ) (subAsk : ℕ → List ℝ) : ASState × ℤ × List ℝ :=
  let chosen : ASState × ℤ :=
    if 0 < st.budgetBeforeChoosing then
      ({ st with budgetBeforeChoosing := st.budgetBeforeChoosing - 1 },
        ((numAsk % st.optims.length : ℕ) : ℤ))
    else
      if st.bestOptim = none then
        let sel := selectBestOptim estimates
        ({ st with bestOptim := some sel }, sel)
      else (st, st.bestOptim.getD 0)
  let st1 := chosen.1
  let optimIndex := chosen.2
  let individual := subAsk (pyListIndex st1.optims.length optimIndex)
  ({ st1 with whoAsked := fun y =>
      if y = individual then st1.whoAsked y ++ [optimIndex]
      else st1.whoAsked y }, optimIndex, individual)

open Classical in
/-- Embedding of the _internal_tell that ASCMADEthird and the competence-map
classes inherit from Portfolio (optimizerlib.py lines 711-715), acting on
ASState: identical ledger behavior, with Python indexing of the
sub-optimizer list for the forwarding target. -/
noncomputable def ascmadeInternalTell (st : ASState) (x : List ℝ)
    (value : ℝ) : Except String (ASState × ℤ) :=
  match st.whoAsked x with
  | [] => .error ("IndexError: list index out of range")
  | i :: rest =>
    .ok ({ st with whoAsked := fun y =>
        if y = x then rest else st.whoAsked y }, i)

/-- Concrete one-particle swarm state: one position strictly inside the unit
interval, one pending location entry for slot 0, empty round queue. -/
noncomputable def psoExampleState : PSOState :=
  { dimension := 1, llambda := 1, pop := [[(1 : ℝ)/2]], popSpeed := [[0]],
    popBest := [[(1 : ℝ)/2]], popBestFitness := [none], popFitness := [none],
    psoBest := none, psoBestFitness := none,
    locations := fun _ => [0], queue := [] }

/-- The same swarm state with no pending location entry. -/
noncomputable def psoEmptyState : PSOState :=
  { psoExampleState with locations := fun _ => [] }

/-- Concrete portfolio state whose dispatch table has sub-optimizer 2 as the
only pending producer of every point. -/
noncomputable def portExampleState : PortfolioState :=
  { optims := [], whoAsked := fun _ => [2] }

/-- Concrete portfolio state with an empty dispatch table. -/
noncomputable def portEmptyState : PortfolioState :=
  { optims := [], whoAsked := fun _ => [] }

open Classical in
/-- Embedding of MPCEDA._internal_tell (optimizerlib.py lines 349-390): the
population-size adaptation block followed by the cohort logic of EDA, with
the covariance estimate exponentially blended: multiplied by 0.9 and
incremented by 0.1 times the sample covariance of the full sorted cohort. -/
noncomputable def mpcedaInternalTell (st : EDAState) (x : List ℚ)
    (value : ℚ) : Option EDAState := do
  let archive1 := st.archiveFitness ++ [value]
  let adapted ←
    popSizeAdaptation st.dimension st.numWorkers st.mu st.llambda archive1
  let mu1 := adapted.1
  let llambda1 := adapted.2.1
  let archive2 := adapted.2.2
  let idx ← st.unevaluatedPopulation.findIdx? (fun p => p == x)
  let evalPop := st.evaluatedPopulation ++ [x]
  let evalFit := st.evaluatedPopulationFitness ++ [value]
  let evalSig := st.evaluatedPopulationSigma ++
    [st.unevaluatedPopulationSigma.getD idx 0]
  let uneval := st.unevaluatedPopulation.eraseIdx idx
  let unevalSig := st.unevaluatedPopulationSigma.eraseIdx idx
  if llambda1 ≤ evalPop.length then
    let sorted := sortCohort evalFit evalPop evalSig
    let sortedPop := sorted.map (fun t => t.2.1)
    let sortedSig := sorted.map (fun t => t.2.2)
    some { st with
      mu := mu1
      llambda := llambda1
      archiveFitness := archive2
      unevaluatedPopulation := uneval
      unevaluatedPopulationSigma := unevalSig
      covariance := fun i j =>
        0.9 * st.covariance i j + 0.1 * covEntry sortedPop i j
      currentCenter := centerOfBest st.dimension mu1 sortedPop
      sigma := geoMeanSigma mu1 sortedSig
      evaluatedPopulation := []
      evaluatedPopulationSigma := []
      evaluatedPopulationFitness := [] }
  else
    some { st with
      mu := mu1
      llambda := llambda1
      archiveFitness := archive2
      unevaluatedPopulation := uneval
      unevaluatedPopulationSigma := unevalSig
      evaluatedPopulation := evalPop
      evaluatedPopulationSigma := evalSig
      evaluatedPopulationFitness := evalFit }

/-- Concrete SPSA state inside a later cycle: even counter 2, init flag
cleared, both evaluation slots filled, stored perturbation [1]. -/
noncomputable def spsaExampleState : SPSAState :=
  { dimension := 1, init := false, idx := 2, delta := some [1],
    ym := some 2, yp := some 1, t := [0], avg := [0],
    a := 1, c := 1, A := 10 }

/-- Concrete TBPSA state one told value away from the 5 lambda archive
threshold: lambda 4, 19 archived fitness values, one pending individual. -/
noncomputable def tbpsaAdaptState : TBPSAState :=
  { dimension := 1, numWorkers := 1, sigma := 1, mu := 1, llambda := 4,
    currentCenter := [0], evaluatedPopulation := [],
    evaluatedPopulationSigma := [], evaluatedPopulationFitness := [],
    unevaluatedPopulation := [[7]], unevaluatedPopulationSigma := [1],
    archiveFitness := List.replicate 19 1 }

/-- Concrete EDA-family state mirroring tbpsaAdaptState, used for the PCEDA
and MPCEDA variants. -/
noncomputable def edaAdaptState : EDAState :=
  { dimension := 1, numWorkers := 1, sigma := 1, covariance := fun _ _ => 0,
    mu := 1, llambda := 4,
    currentCenter := [0], evaluatedPopulation := [],
    evaluatedPopulationSigma := [], evaluatedPopulationFitness := [],
    unevaluatedPopulation := [[7]], unevaluatedPopulationSigma := [1],
    archiveFitness := List.replicate 19 1 }

/-- Concrete EDA state one told individual away from a full cohort, with
the init values of dimension 1: mu 1, lambda 4, identity covariance; three
evaluated individuals and one pending. -/
noncomputable def edaCohortState : EDAState :=
  { dimension := 1, numWorkers := 1, sigma := 1,
    covariance := fun i j => if i = j then 1 else 0, mu := 1, llambda := 4,
    currentCenter := [0], evaluatedPopulation := [[0], [2], [4]],
    evaluatedPopulationSigma := [1, 1, 1],
    evaluatedPopulationFitness := [1, 2, 3],
    unevaluatedPopulation := [[6]], unevaluatedPopulationSigma := [1],
    archiveFitness := [] }

/-- Concrete TBPSA state one told individual away from a full cohort, with
the init values of dimension 1. -/
noncomputable def tbpsaCohortState : TBPSAState :=
  { dimension := 1, numWorkers := 1, sigma := 1, mu := 1, llambda := 4,
    currentCenter := [0], evaluatedPopulation := [[0], [2], [4]],
    evaluatedPopulationSigma := [1, 1, 1],
    evaluatedPopulationFitness := [1, 2, 3],
    unevaluatedPopulation := [[6]], unevaluatedPopulationSigma := [1],
    archiveFitness := [] }

/-! ## Claim theorems -/

/-- C2, counterexample: with the discrete mutation configured, a tell still
changes sigma (here from 1 to 2), refuting the claim that for mutation kinds
other than Gaussian and Cauchy a tell leaves sigma unchanged. -/
theorem c2_counterexample :
    (onePlusOneInternalTell
      { params := { noiseHandling := none, mutation := "discrete",
                    crossover := false }, sigma := 1 } 0 0).sigma = 2 ∧
    (2 : ℚ) ≠ 1 := by
  constructor
  · simp [onePlusOneInternalTell]
  · norm_num

/-- C2, amended: in the self-adaptive one-plus-one optimizer every tell
multiplies sigma by exactly 2 when the told value is less than or equal to
the current pessimistic best mean and by exactly 0.84 otherwise, so after
any scripted sequence of tells sigma equals the initial sigma times the
product of the corresponding factors; this holds for every configured
mutation kind (the source applies the update unconditionally, and sigma
merely goes unused by the non-Gaussian, non-Cauchy asks). -/
theorem c2_sigma_factor_product (st : OnePlusOneState)
    (script : List (ℚ × ℚ)) :
    (script.foldl (fun s mv => onePlusOneInternalTell s mv.1 mv.2) st).sigma =
      st.sigma *
        (script.map (fun mv => if mv.2 ≤ mv.1 then (2 : ℚ) else 0.84)).prod := by
  induction script generalizing st with
  | nil => simp
  | cons mv rest ih =>
    rw [List.foldl_cons, ih, List.map_cons, List.prod_cons]
    simp only [onePlusOneInternalTell]
    ring

/-- C8, counterexample: the very first ask of a freshly constructed SPSA
optimizer (dimension 1, budget 100) with drawn perturbation [1] returns
[-0.1], not the all-zero origin, so not every optimizer starts from the
origin. -/
theorem c8_counterexample :
    (spsaInternalAsk (spsaInit 1 (some 100)) [1]).map (fun r => r.2) =
      some [-(1 : ℝ) / 10] ∧ ([-(1 : ℝ) / 10] : List ℝ) ≠ [0] := by
  constructor
  · simp [spsaInternalAsk, spsaInit, spsaCk, rvSub, rvSmul]
    norm_num
  · intro h
    have := List.head_eq_of_cons_eq h
    norm_num at this

/-- C8, amended: only the one-plus-one family special-cases the first ask:
with ask counter 0 its ask deterministically returns the all-zero origin of
the requested dimension, for every configuration, archive contents and
random draws (the first asks of TBPSA, EDA, PSO and SPSA are randomized
probes instead; SPSA's is minus c0 times the drawn perturbation). -/
theorem c8_one_plus_one_first_ask_origin (d : ℕ) (st : OnePlusOneState)
    (archiveSize : ℕ) (pb ob : List ℚ) (o : OnePlusOneAskOracle) :
    onePlusOneInternalAsk d st 0 archiveSize pb ob o =
      .ok (List.replicate d 0) := by
  simp [onePlusOneInternalAsk]

/-- C6, code_bug evidence: on a freshly constructed CMA optimizer (the
solver field es is still None because no ask or tell has happened), the
recommendation method returns the RuntimeError exception object as an
ordinary value - the source writes return where raise was intended - so the
call does not fail as the specification requires. -/
theorem c6_recommend_returns_exception_object :
    cmaInternalProvideRecommendation (cmaInit 7) [0, 0] =
      .returned (.exnObject
        ("Either ask or tell method should have been called before")) := by
  simp [cmaInternalProvideRecommendation, cmaInit]

/-- C5, counterexample: with solver population size 1, a tell whose batch
the solver rejects leaves the rejected pair in the buffer: after the tell
the buffer still holds the point of the rejected batch, refuting the claim
that the buffer is cleared on rejection. -/
theorem c5_counterexample :
    (cmaInternalTell
      { esInit := true, popsize := 1, listx := [], listy := [] }
      false [5] 3).listx = [[5]] ∧ ([[5]] : List (List ℚ)) ≠ [] := by
  constructor
  · simp [cmaInternalTell]
  · simp

/-- C5, amended: tell appends the pair (x, value) to the buffers; when the
buffer has reached the solver population size the whole batch is submitted;
on success the buffers are cleared, while on a rejected submission they are
kept unchanged (the rejected batch plus the new pair), so the rejected batch
is resubmitted together with subsequent tells rather than dropped; below
the population size the pair is only buffered. -/
theorem c5_tell_buffer_behavior (st : CMAState) (accept : Bool) (x : List ℚ)
    (v : ℚ) :
    (cmaInternalTell st accept x v).listx =
      (if st.popsize ≤ (st.listx ++ [x]).length ∧ accept = true then []
       else st.listx ++ [x]) ∧
    (cmaInternalTell st accept x v).listy =
      (if st.popsize ≤ (st.listx ++ [x]).length ∧ accept = true then []
       else st.listy ++ [v]) := by
  unfold cmaInternalTell
  by_cases h : st.popsize ≤ st.listx.length + 1 <;>
    cases accept <;> simp [h, List.length_append]

/-- C10: every portfolio and competence-map constructor (Portfolio,
ParaPortfolio, ParaSQPCMA, ASCMADEthird, ASCMADEQRthird, ASCMA2PDEthird,
CMandAS2, CMandAS, CM, MultiCMA, TripleCMA, MultiScaleCMA) rejects
construction with budget = None with an assertion failure, for every
dimension and worker count, while a finite budget always passes the
Portfolio and active-selection constructors. -/
theorem c10_portfolio_family_requires_budget (d w : ℕ) :
    portfolioInit d none w = .error ("AssertionError: budget is not None") ∧
    paraPortfolioInit d none w =
      .error ("AssertionError: budget is not None") ∧
    paraSQPCMAInit d none w = .error ("AssertionError: budget is not None") ∧
    ascmadeThirdInit d none w =
      .error ("AssertionError: budget is not None") ∧
    ascmadeQRthirdInit d none w =
      .error ("AssertionError: budget is not None") ∧
    ascma2pdeThirdInit d none w =
      .error ("AssertionError: budget is not None") ∧
    cmandAS2Init d none w = .error ("AssertionError: budget is not None") ∧
    cmandASInit d none w = .error ("AssertionError: budget is not None") ∧
    cmInit d none w = .error ("AssertionError: budget is not None") ∧
    multiCMAInit d none w = .error ("AssertionError: budget is not None") ∧
    tripleCMAInit d none w = .error ("AssertionError: budget is not None") ∧
    multiScaleCMAInit d none w =
      .error ("AssertionError: budget is not None") ∧
    (∀ b, ∃ st, portfolioInit d (some b) w = .ok st) ∧
    (∀ b, ∃ st, ascmadeThirdInit d (some b) w = .ok st) := by
  refine ⟨rfl, ?_, ?_, ?_, ?_, ?_, ?_, ?_, ?_, ?_, ?_, ?_, ?_, ?_⟩
  all_goals
    simp [paraPortfolioInit, paraSQPCMAInit, ascmadeThirdInit,
      ascmadeQRthirdInit, ascma2pdeThirdInit, cmandAS2Init, cmandASInit,
      cmInit, multiCMAInit, tripleCMAInit, multiScaleCMAInit,
      portfolioInit, Bind.bind, Except.bind]

/-- C7, code_bug evidence: for ASCMADEthird with dimension 1, budget 3 and
one worker, the initial round-robin phase lasts one ask; on the second ask,
with sub-optimizer pessimistic estimates 0 (for CMA, index 0) and 5 (for
LhsDE, index 1), the selection loop would choose index 0, but the ask
delegates to raw index -1, which Python resolves to index 1, the last
sub-optimizer, because best_optim was initialized to the integer -1 rather
than None, so the branch running the selection loop is unreachable. -/
theorem c7_post_phase_ignores_estimates :
    (ascmadeThirdInit 1 (some 3) 1).map (fun st =>
      let st1 := (ascmadeInternalAsk st 0 ([] : List ℝ) (fun _ => [])).1
      let second := ascmadeInternalAsk st1 1 [(0 : ℝ), 5] (fun _ => [])
      (st1.budgetBeforeChoosing, second.2.1,
        pyListIndex st1.optims.length second.2.1, selectBestOptim [0, 5])) =
      .ok (0, -1, 1, 0) := by
  have hsel : selectBestOptim [(0 : ℝ), 5] = 0 := by
    have h5 : ¬ ((0 : ℝ) < 5) = False := by norm_num
    simp [selectBestOptim, List.enum, List.enumFrom]
    norm_num
  simp [ascmadeThirdInit, portfolioInit, Bind.bind, Except.bind,
    Except.map, ascmadeInternalAsk, pyListIndex, hsel]

/-- C1: for both pending-request ledgers keyed by point - the particle
swarm's location map and the portfolio's dispatch table - a tell whose queue
for the told point is non-empty consumes exactly the head entry of that
queue (the slot or sub-optimizer index recorded by the oldest pending ask
that produced the point, since asks append at the tail) and leaves the
queue of every other point untouched, so each tell is attributed to the
oldest matching ask even when duplicate points are in flight; a tell whose
queue is empty or absent raises instead of being silently ignored. -/
theorem c1_fifo_ledger (toReal : List ℝ → List ℝ) (st : PSOState)
    (x : List ℝ) (v : ℝ) (loc : ℕ) (rest : List ℕ)
    (hq : st.locations x = loc :: rest)
    (hpt : toReal (st.pop.getD loc []) = x)
    (hne : st.pop.getD loc [] ≠ [])
    (hin : ∀ c ∈ st.pop.getD loc [], 0 < c ∧ c < 1)
    (st2 : PSOState) (x2 : List ℝ) (v2 : ℝ)
    (hq2 : st2.locations x2 = [])
    (pst : PortfolioState) (y : List ℝ) (w : ℝ) (j : ℤ) (qrest : List ℤ)
    (hp : pst.whoAsked y = j :: qrest)
    (pst2 : PortfolioState) (y2 : List ℝ) (w2 : ℝ)
    (hp2 : pst2.whoAsked y2 = []) :
    (∃ st1, psoInternalTell toReal st x v = .ok st1 ∧
      st1.locations x = rest ∧
      (∀ z, z ≠ x → st1.locations z = st.locations z) ∧
      st1.queue = st.queue ++ [loc]) ∧
    psoInternalTell toReal st2 x2 v2 =
      .error ("AssertionError: self.locations[x]") ∧
    (∃ pst1, portfolioInternalTell pst y w = .ok (pst1, j) ∧
      pst1.whoAsked y = qrest ∧
      (∀ z, z ≠ y → pst1.whoAsked z = pst.whoAsked z)) ∧
    portfolioInternalTell pst2 y2 w2 =
      .error ("IndexError: list index out of range") := by
  classical
  have hloc : ¬ (loc :: rest = ([] : List ℕ)) := by simp
  have hxx : ¬ (x ≠ x) := fun h => h rfl
  refine ⟨?_, ?_, ?_, ?_⟩
  · obtain ⟨mx, hmx⟩ : ∃ mx, (st.pop.getD loc []).max? = some mx := by
      rcases hpos : st.pop.getD loc [] with _ | ⟨a, as⟩
      · exact absurd hpos hne
      · exact ⟨_, List.max?_cons'⟩
    obtain ⟨mn, hmn⟩ : ∃ mn, (st.pop.getD loc []).min? = some mn := by
      rcases hpos : st.pop.getD loc [] with _ | ⟨a, as⟩
      · exact absurd hpos hne
      · exact ⟨_, List.min?_cons'⟩
    have hmx1 : mx < 1 := (hin mx (List.max?_mem max_choice hmx)).2
    have hmn0 : 0 < mn := (hin mn (List.min?_mem min_choice hmn)).1
    by_cases himp : ltInf v st.psoBestFitness
    · refine ⟨{ st with
          popFitness := st.popFitness.set loc (some v)
          psoBest := some (st.pop.getD loc [])
          psoBestFitness := some v
          popBest := if ltInf v (st.popBestFitness.getD loc none)
            then st.popBest.set loc (st.pop.getD loc []) else st.popBest
          popBestFitness := if ltInf v (st.popBestFitness.getD loc none)
            then st.popBestFitness.set loc (some v) else st.popBestFitness
          locations := fun y => if y = x then (st.locations x).tail
            else st.locations y
          queue := st.queue ++ [loc] }, ?_, ?_, ?_, ?_⟩
      · simp only [psoInternalTell, hq, List.headD_cons, hpt]
        rw [if_neg hloc, if_neg hxx, if_pos himp]
        simp only [hmx, hmn]
        rw [if_pos hmx1, if_pos hmn0]
      · simp [hq]
      · intro z hz; simp [hz]
      · rfl
    · refine ⟨{ st with
          popFitness := st.popFitness.set loc (some v)
          psoBest := st.psoBest
          psoBestFitness := st.psoBestFitness
          popBest := if ltInf v (st.popBestFitness.getD loc none)
            then st.popBest.set loc (st.pop.getD loc []) else st.popBest
          popBestFitness := if ltInf v (st.popBestFitness.getD loc none)
            then st.popBestFitness.set loc (some v) else st.popBestFitness
          locations := fun y => if y = x then (st.locations x).tail
            else st.locations y
          queue := st.queue ++ [loc] }, ?_, ?_, ?_, ?_⟩
      · simp only [psoInternalTell, hq, List.headD_cons, hpt]
        rw [if_neg hloc, if_neg hxx, if_neg himp]
      · simp [hq]
      · intro z hz; simp [hz]
      · rfl
  · simp [psoInternalTell, hq2]
  · refine ⟨{ pst with whoAsked := fun z =>
        if z = y then qrest else pst.whoAsked z }, ?_, ?_, ?_⟩
    · simp only [portfolioInternalTell, hp]
    · simp
    · intro z hz; simp [hz]
  · simp [portfolioInternalTell, hp2]

/-- Witness instantiating the FIFO ledger theorem at the concrete states
above. -/
theorem c1_fifo_ledger_witness :
    (∃ st1, psoInternalTell (fun z => z) psoExampleState [(1 : ℝ)/2] 0 =
        .ok st1 ∧
      st1.locations [(1 : ℝ)/2] = [] ∧
      (∀ z, z ≠ [(1 : ℝ)/2] →
        st1.locations z = psoExampleState.locations z) ∧
      st1.queue = psoExampleState.queue ++ [0]) ∧
    psoInternalTell (fun z => z) psoEmptyState [(1 : ℝ)/2] 0 =
      .error ("AssertionError: self.locations[x]") ∧
    (∃ pst1, portfolioInternalTell portExampleState [] 0 = .ok (pst1, 2) ∧
      pst1.whoAsked [] = [] ∧
      (∀ z, z ≠ [] → pst1.whoAsked z = portExampleState.whoAsked z)) ∧
    portfolioInternalTell portEmptyState [] 0 =
      .error ("IndexError: list index out of range") :=
  c1_fifo_ledger (fun z => z) psoExampleState [(1 : ℝ)/2] 0 0 []
    (by simp [psoExampleState]) (by simp [psoExampleState])
    (by simp [psoExampleState])
    (by intro c hc; simp [psoExampleState] at hc; subst hc; norm_num)
    psoEmptyState [(1 : ℝ)/2] 0 (by simp [psoEmptyState, psoExampleState])
    portExampleState [] 0 2 [] (by simp [portExampleState])
    portEmptyState [] 0 (by simp [portEmptyState])

/-- C9: the SPSA optimizer runs in strict two-call cycles indexed by the
shared counter idx, advanced only by tell.  On the very first cycle (init
flag still set) an even-counter ask applies no update: it only draws the
fresh perturbation and returns t - c_k Delta.  At an even counter k past the
first cycle, an ask first applies the gradient update
t := t - a_k (yplus - yminus) / (2 c_k) Delta using the previous cycle's
stored perturbation and paired evaluations, then updates the running average
incrementally by (t - avg) / (k/2 + 1), draws a fresh ±1 perturbation and
returns t - c_k Delta; the following tell stores its value in the minus slot
and advances k; the ask at the now odd counter returns t + c_k Delta with
the same perturbation and the same gain value (since (k+1)//2 = k//2) and
changes no state; the next tell stores into the plus slot and advances k
again; and the gain sequences are exactly c_k = c / (k//2 + 1)^0.101 and
a_k = a / (k//2 + 1 + A)^0.602. -/
theorem c9_spsa_cycle (st : SPSAState) (fresh1 fresh2 : List ℝ)
    (v1 v2 : ℝ) (yp0 ym0 : ℝ) (delta0 : List ℝ)
    (heven : st.idx % 2 = 0) (hinit : st.init = false)
    (hyp : st.yp = some yp0) (hym : st.ym = some ym0)
    (hdelta : st.delta = some delta0) :
    spsaCk st st.idx = st.c / ((st.idx / 2 + 1 : ℕ) : ℝ) ^ (0.101 : ℝ) ∧
    spsaAk st st.idx =
      st.a / (((st.idx / 2 + 1 : ℕ) : ℝ) + st.A) ^ (0.602 : ℝ) ∧
    (∀ (stI : SPSAState) (f : List ℝ), stI.idx % 2 = 0 → stI.init = true →
      spsaInternalAsk stI f =
        some ({ stI with delta := some f },
          rvSub stI.t (rvSmul (spsaCk stI stI.idx) f))) ∧
    (let t1 := rvSub st.t
       (rvSmul (spsaAk st st.idx * (yp0 - ym0) / 2 / spsaCk st st.idx)
         delta0)
     let avg1 := rvAdd st.avg
       (rvDivS (rvSub t1 st.avg) ((st.idx / 2 + 1 : ℕ) : ℝ))
     ∃ st2, spsaInternalAsk st fresh1 =
         some (st2, rvSub t1 (rvSmul (spsaCk st st.idx) fresh1)) ∧
       st2.t = t1 ∧ st2.avg = avg1 ∧ st2.delta = some fresh1 ∧
       st2.idx = st.idx ∧
       (let st3 := spsaInternalTell st2 v1
        st3.ym = some v1 ∧ st3.yp = st2.yp ∧ st3.idx = st.idx + 1 ∧
        spsaCk st3 st3.idx = spsaCk st st.idx ∧
        spsaInternalAsk st3 fresh2 =
          some (st3, rvAdd t1 (rvSmul (spsaCk st st.idx) fresh1)) ∧
        (let st4 := spsaInternalTell st3 v2
         st4.yp = some v2 ∧ st4.idx = st.idx + 2))) := by
  have hdiv : (st.idx + 1) / 2 = st.idx / 2 := by omega
  have hodd : ¬ ((st.idx + 1) % 2 = 0) := by omega
  refine ⟨rfl, rfl, ?_, ?_⟩
  · intro stI f he hi
    simp [spsaInternalAsk, spsaCk, he, hi]
  refine ⟨{ st with
      t := rvSub st.t
        (rvSmul (spsaAk st st.idx * (yp0 - ym0) / 2 / spsaCk st st.idx)
          delta0)
      avg := rvAdd st.avg
        (rvDivS (rvSub (rvSub st.t
            (rvSmul (spsaAk st st.idx * (yp0 - ym0) / 2 / spsaCk st st.idx)
              delta0)) st.avg) ((st.idx / 2 + 1 : ℕ) : ℝ))
      delta := some fresh1 }, ?_, rfl, rfl, rfl, rfl, ?_⟩
  · simp [spsaInternalAsk, spsaCk, heven, hinit, hyp, hym, hdelta]
  · refine ⟨?_, ?_, ?_, ?_, ?_, ?_, ?_⟩
    · simp [spsaInternalTell, heven, hinit]
    · simp [spsaInternalTell, heven, hinit]
    · simp [spsaInternalTell, heven, hinit]
    · simp [spsaInternalTell, spsaCk, heven, hinit, hdiv]
    · simp [spsaInternalTell, spsaInternalAsk, spsaCk, heven, hinit, hodd,
        hdiv]
    · simp [spsaInternalTell, heven, hinit, hodd]
    · simp [spsaInternalTell, heven, hinit, hodd]

/-- Witness instantiating the SPSA cycle theorem at the concrete state
spsaExampleState with drawn perturbation [1] and told values 5 and 6. -/
theorem c9_spsa_cycle_witness :
    spsaCk spsaExampleState spsaExampleState.idx =
      spsaExampleState.c /
        ((spsaExampleState.idx / 2 + 1 : ℕ) : ℝ) ^ (0.101 : ℝ) ∧
    spsaAk spsaExampleState spsaExampleState.idx =
      spsaExampleState.a /
        (((spsaExampleState.idx / 2 + 1 : ℕ) : ℝ) + spsaExampleState.A) ^
          (0.602 : ℝ) ∧
    (∀ (stI : SPSAState) (f : List ℝ), stI.idx % 2 = 0 → stI.init = true →
      spsaInternalAsk stI f =
        some ({ stI with delta := some f },
          rvSub stI.t (rvSmul (spsaCk stI stI.idx) f))) ∧
    (let t1 := rvSub spsaExampleState.t
       (rvSmul (spsaAk spsaExampleState spsaExampleState.idx * (1 - 2) / 2 /
           spsaCk spsaExampleState spsaExampleState.idx) [1])
     let avg1 := rvAdd spsaExampleState.avg
       (rvDivS (rvSub t1 spsaExampleState.avg)
         ((spsaExampleState.idx / 2 + 1 : ℕ) : ℝ))
     ∃ st2, spsaInternalAsk spsaExampleState [1] =
         some (st2, rvSub t1
           (rvSmul (spsaCk spsaExampleState spsaExampleState.idx) [1])) ∧
       st2.t = t1 ∧ st2.avg = avg1 ∧ st2.delta = some [1] ∧
       st2.idx = spsaExampleState.idx ∧
       (let st3 := spsaInternalTell st2 5
        st3.ym = some 5 ∧ st3.yp = st2.yp ∧
        st3.idx = spsaExampleState.idx + 1 ∧
        spsaCk st3 st3.idx = spsaCk spsaExampleState spsaExampleState.idx ∧
        spsaInternalAsk st3 [1] =
          some (st3, rvAdd t1
            (rvSmul (spsaCk spsaExampleState spsaExampleState.idx) [1])) ∧
        (let st4 := spsaInternalTell st3 6
         st4.yp = some 6 ∧ st4.idx = spsaExampleState.idx + 2))) :=
  c9_spsa_cycle spsaExampleState [1] [1] 5 6 1 2 [1] rfl rfl rfl rfl rfl

/-- The population variance of a list of rationals is nonnegative. -/
theorem popVar_nonneg (l : List ℚ) : 0 ≤ popVar l := by
  unfold popVar
  apply div_nonneg
  · apply List.sum_nonneg
    intro q hq
    simp only [List.mem_map] at hq
    obtain ⟨a, _, rfl⟩ := hq
    exact sq_nonneg _
  · positivity

/-- With a cohort size of at least 2, nonempty fifths and at least one
fifth of positive variance, the floating point z of the adaptation block is
the finite real z statistic of the specification. -/
theorem pfZ_pos_var (llambda : ℕ) (first last : List ℚ)
    (hlam : 2 ≤ llambda) (hf : first ≠ []) (hl : last ≠ [])
    (hvar : 0 < popVar first + popVar last) :
    pfZ llambda first last =
      .fin ((((first.sum : ℚ) : ℝ) / (llambda : ℝ) -
        ((last.sum : ℚ) : ℝ) / (llambda : ℝ)) /
        Real.sqrt (((popVar first : ℚ) : ℝ) / ((llambda : ℝ) - 1) +
          ((popVar last : ℚ) : ℝ) / ((llambda : ℝ) - 1))) := by
  have hlam1 : (0 : ℝ) < (llambda : ℝ) - 1 := by
    have h2 : (2 : ℝ) ≤ (llambda : ℝ) := by exact_mod_cast hlam
    linarith
  have hnlt : ¬ ((llambda : ℝ) - 1 < 0) := by linarith
  have hsq : Real.sqrt ((llambda : ℝ) - 1) ≠ 0 :=
    ne_of_gt (Real.sqrt_pos.mpr hlam1)
  have key : ∀ l' : List ℚ,
      (npStd l' / Real.sqrt ((llambda : ℝ) - 1)) ^ 2 =
        ((popVar l' : ℚ) : ℝ) / ((llambda : ℝ) - 1) := by
    intro l'
    rw [div_pow, npStd, Real.sq_sqrt (by exact_mod_cast popVar_nonneg l'),
      Real.sq_sqrt (le_of_lt hlam1)]
  have hS : 0 < ((popVar first : ℚ) : ℝ) / ((llambda : ℝ) - 1) +
      ((popVar last : ℚ) : ℝ) / ((llambda : ℝ) - 1) := by
    rw [div_add_div_same]
    apply div_pos _ hlam1
    exact_mod_cast hvar
  have hSnn : ¬ (((popVar first : ℚ) : ℝ) / ((llambda : ℝ) - 1) +
      ((popVar last : ℚ) : ℝ) / ((llambda : ℝ) - 1) < 0) := by linarith
  have hsqS : Real.sqrt (((popVar first : ℚ) : ℝ) / ((llambda : ℝ) - 1) +
      ((popVar last : ℚ) : ℝ) / ((llambda : ℝ) - 1)) ≠ 0 :=
    ne_of_gt (Real.sqrt_pos.mpr hS)
  simp only [pfZ, pfStd, if_neg hf, if_neg hl, pfSqrt, if_neg hnlt, pfDiv,
    if_neg hsq, pfSq, key, pfAdd, if_neg hSnn, if_neg hsqS]

/-- With nonempty zero-variance fifths and a cohort size of at least 2, the
floating point z of the adaptation block is an IEEE quotient by zero - nan
for equal means, a signed infinity otherwise - so the comparison z < 2.
holds exactly when mean1 < mean2. -/
theorem pfZ_zero_var_lt (llambda : ℕ) (first last : List ℚ)
    (hlam : 2 ≤ llambda) (hf : first ≠ []) (hl : last ≠ [])
    (hv1 : popVar first = 0) (hv2 : popVar last = 0) :
    (pfLt (pfZ llambda first last) (.fin 2) ↔
      ((first.sum : ℚ) : ℝ) / (llambda : ℝ) <
        ((last.sum : ℚ) : ℝ) / (llambda : ℝ)) := by
  have hlam1 : (0 : ℝ) < (llambda : ℝ) - 1 := by
    have h2 : (2 : ℝ) ≤ (llambda : ℝ) := by exact_mod_cast hlam
    linarith
  have hnlt : ¬ ((llambda : ℝ) - 1 < 0) := by linarith
  have hsq : Real.sqrt ((llambda : ℝ) - 1) ≠ 0 :=
    ne_of_gt (Real.sqrt_pos.mpr hlam1)
  have hstd : ∀ l' : List ℚ, popVar l' = 0 → npStd l' = 0 := by
    intro l' h
    rw [npStd, h]
    simp [Real.sqrt_zero]
  have hz : pfZ llambda first last =
      pfDiv (.fin (((first.sum : ℚ) : ℝ) / (llambda : ℝ) -
        ((last.sum : ℚ) : ℝ) / (llambda : ℝ))) (.fin 0) := by
    simp only [pfZ, pfStd, if_neg hf, if_neg hl, pfSqrt, if_neg hnlt,
      pfDiv, if_neg hsq, pfSq, pfAdd, hstd first hv1, hstd last hv2]
    norm_num [Real.sqrt_zero]
  rw [hz]
  rcases lt_trichotomy
      (((first.sum : ℚ) : ℝ) / (llambda : ℝ))
      (((last.sum : ℚ) : ℝ) / (llambda : ℝ)) with h | h | h
  · rw [pfDiv, if_pos rfl, if_neg (by linarith), if_neg (by linarith)]
    simp only [pfLt, true_iff]
    exact h
  · rw [pfDiv, if_pos rfl, if_pos (by linarith)]
    simp only [pfLt, false_iff, not_lt]
    exact le_of_eq h.symm
  · rw [pfDiv, if_pos rfl, if_neg (by linarith), if_pos (by linarith)]
    simp only [pfLt, false_iff, not_lt]
    exact le_of_lt h

/-- C3 (amended): in TBPSA and the PCEDA / MPCEDA variants, the mu, lambda
and fitness-archive fields after any tell are exactly the result of the
population-size adaptation block applied to the archive extended by the
told value, and that block fires exactly when the archive has reached 5
lambda told values: the first lambda archived values and the last lambda
(indices 4 lambda .. 5 lambda - 1) are compared by the two-sample z
statistic z = (mean1 - mean2) / sqrt(se1^2 + se2^2), evaluated in floating
point - when at least one fifth has positive variance z is the finite real
value of that formula and the branch tests z < 2; when both fifths have
zero variance the denominator is zero, z is nan or a signed infinity, and
the test holds exactly when mean1 < mean2.  When the test holds mu is
doubled, otherwise mu becomes int(0.84 mu) floored at the dimension; lambda
becomes 4 mu, raised to at least num_workers with mu rebalanced to
lambda // 4 when num_workers > 1; and the archive is cleared.  Below the
5 lambda threshold the block changes nothing. -/
theorem c3_population_size_adaptation
    (st : TBPSAState) (x : List ℚ) (v : ℚ) (idx : ℕ)
    (hidx : st.unevaluatedPopulation.findIdx? (fun p => p == x) = some idx)
    (est : EDAState) (x2 : List ℚ) (v2 : ℚ) (idx2 : ℕ)
    (hidx2 : est.unevaluatedPopulation.findIdx? (fun p => p == x2) =
      some idx2)
    (mst : EDAState) (x3 : List ℚ) (v3 : ℚ) (idx3 : ℕ)
    (hidx3 : mst.unevaluatedPopulation.findIdx? (fun p => p == x3) =
      some idx3) :
    (∀ trip, popSizeAdaptation st.dimension st.numWorkers st.mu st.llambda
        (st.archiveFitness ++ [v]) = some trip →
      ∃ st1, tbpsaInternalTell st x v = some st1 ∧
        (st1.mu, st1.llambda, st1.archiveFitness) = trip) ∧
    (∀ trip, popSizeAdaptation est.dimension est.numWorkers est.mu
        est.llambda (est.archiveFitness ++ [v2]) = some trip →
      ∃ st1, pcedaInternalTell est x2 v2 = some st1 ∧
        (st1.mu, st1.llambda, st1.archiveFitness) = trip) ∧
    (∀ trip, popSizeAdaptation mst.dimension mst.numWorkers mst.mu
        mst.llambda (mst.archiveFitness ++ [v3]) = some trip →
      ∃ st1, mpcedaInternalTell mst x3 v3 = some st1 ∧
        (st1.mu, st1.llambda, st1.archiveFitness) = trip) ∧
    (∀ d w mu llambda archive, (archive : List ℚ).length = 5 * llambda →
       2 ≤ llambda →
      (let first := archive.take llambda
       let last := (archive.drop (4 * llambda)).take llambda
       let z : ℝ := (((first.sum : ℚ) : ℝ) / (llambda : ℝ) -
           ((last.sum : ℚ) : ℝ) / (llambda : ℝ)) /
         Real.sqrt (((popVar first : ℚ) : ℝ) / ((llambda : ℝ) - 1) +
           ((popVar last : ℚ) : ℝ) / ((llambda : ℝ) - 1))
       let rebalance : ℕ → ℕ × ℕ × List ℚ := fun m =>
         if 1 < w then (max (4 * m) w / 4, max (4 * m) w, ([] : List ℚ))
         else (m, 4 * m, ([] : List ℚ))
       (0 < popVar first + popVar last →
         (z < 2 → popSizeAdaptation d w mu llambda archive =
            some (rebalance (2 * mu))) ∧
         (¬ z < 2 → popSizeAdaptation d w mu llambda archive =
            some (rebalance
              (if 21 * mu / 25 < d then d else 21 * mu / 25)))) ∧
       (popVar first = 0 → popVar last = 0 →
         (((first.sum : ℚ) : ℝ) / (llambda : ℝ) <
             ((last.sum : ℚ) : ℝ) / (llambda : ℝ) →
            popSizeAdaptation d w mu llambda archive =
              some (rebalance (2 * mu))) ∧
         (¬ ((first.sum : ℚ) : ℝ) / (llambda : ℝ) <
             ((last.sum : ℚ) : ℝ) / (llambda : ℝ) →
            popSizeAdaptation d w mu llambda archive =
              some (rebalance
                (if 21 * mu / 25 < d then d else 21 * mu / 25)))))) ∧
    (∀ d w mu llambda archive, (archive : List ℚ).length < 5 * llambda →
      popSizeAdaptation d w mu llambda archive =
        some (mu, llambda, archive)) := by
  refine ⟨?_, ?_, ?_, ?_, ?_⟩
  · intro trip htrip
    simp only [tbpsaInternalTell, htrip, hidx, Option.bind_eq_bind,
      Option.some_bind]
    split
    · exact ⟨_, rfl, rfl⟩
    · exact ⟨_, rfl, rfl⟩
  · intro trip htrip
    simp only [pcedaInternalTell, htrip, hidx2, Option.bind_eq_bind,
      Option.some_bind]
    split
    · exact ⟨_, rfl, rfl⟩
    · exact ⟨_, rfl, rfl⟩
  · intro trip htrip
    simp only [mpcedaInternalTell, htrip, hidx3, Option.bind_eq_bind,
      Option.some_bind]
    split
    · exact ⟨_, rfl, rfl⟩
    · exact ⟨_, rfl, rfl⟩
  · intro d w mu llambda archive hlen hlam
    have hge : 5 * llambda ≤ archive.length := le_of_eq hlen.symm
    have hlam0 : ¬ (llambda = 0) := by omega
    have hflen : (archive.take llambda).length = llambda := by
      rw [List.length_take]
      omega
    have hllen : ((archive.drop (4 * llambda)).take llambda).length =
        llambda := by
      rw [List.length_take, List.length_drop]
      omega
    have hf : archive.take llambda ≠ [] := by
      intro hh
      rw [hh] at hflen
      simp at hflen
      omega
    have hl : (archive.drop (4 * llambda)).take llambda ≠ [] := by
      intro hh
      rw [hh] at hllen
      simp at hllen
      omega
    refine ⟨?_, ?_⟩
    · intro hvar
      constructor
      · intro hz
        have hfin := pfZ_pos_var llambda (archive.take llambda)
          ((archive.drop (4 * llambda)).take llambda) hlam hf hl hvar
        have hplt : pfLt (pfZ llambda (archive.take llambda)
            ((archive.drop (4 * llambda)).take llambda)) (.fin 2) := by
          rw [hfin]
          exact hz
        unfold popSizeAdaptation
        rw [if_pos hge, if_neg hlam0]
        by_cases hw : 1 < w <;> simp [hplt, hw]
      · intro hz
        have hfin := pfZ_pos_var llambda (archive.take llambda)
          ((archive.drop (4 * llambda)).take llambda) hlam hf hl hvar
        have hplt : ¬ pfLt (pfZ llambda (archive.take llambda)
            ((archive.drop (4 * llambda)).take llambda)) (.fin 2) := by
          rw [hfin]
          exact hz
        unfold popSizeAdaptation
        rw [if_pos hge, if_neg hlam0]
        by_cases hw : 1 < w <;> simp [hplt, hw]
    · intro hv1 hv2
      have hiff := pfZ_zero_var_lt llambda (archive.take llambda)
        ((archive.drop (4 * llambda)).take llambda) hlam hf hl hv1 hv2
      constructor
      · intro hmean
        have hplt : pfLt (pfZ llambda (archive.take llambda)
            ((archive.drop (4 * llambda)).take llambda)) (.fin 2) :=
          hiff.mpr hmean
        unfold popSizeAdaptation
        rw [if_pos hge, if_neg hlam0]
        by_cases hw : 1 < w <;> simp [hplt, hw]
      · intro hmean
        have hplt : ¬ pfLt (pfZ llambda (archive.take llambda)
            ((archive.drop (4 * llambda)).take llambda)) (.fin 2) :=
          fun hp => hmean (hiff.mp hp)
        unfold popSizeAdaptation
        rw [if_pos hge, if_neg hlam0]
        by_cases hw : 1 < w <;> simp [hplt, hw]
  · intro d w mu llambda archive h
    have hlt : ¬ 5 * llambda ≤ archive.length := by omega
    unfold popSizeAdaptation
    rw [if_neg hlt]

/-- Witness instantiating the population-size adaptation theorem at the
concrete states tbpsaAdaptState and edaAdaptState, telling the pending
point [7] with value 1. -/
theorem c3_population_size_adaptation_witness :
    (∀ trip, popSizeAdaptation tbpsaAdaptState.dimension
        tbpsaAdaptState.numWorkers tbpsaAdaptState.mu
        tbpsaAdaptState.llambda (tbpsaAdaptState.archiveFitness ++ [1]) =
        some trip →
      ∃ st1, tbpsaInternalTell tbpsaAdaptState [7] 1 = some st1 ∧
        (st1.mu, st1.llambda, st1.archiveFitness) = trip) ∧
    (∀ trip, popSizeAdaptation edaAdaptState.dimension
        edaAdaptState.numWorkers edaAdaptState.mu edaAdaptState.llambda
        (edaAdaptState.archiveFitness ++ [1]) = some trip →
      ∃ st1, pcedaInternalTell edaAdaptState [7] 1 = some st1 ∧
        (st1.mu, st1.llambda, st1.archiveFitness) = trip) ∧
    (∀ trip, popSizeAdaptation edaAdaptState.dimension
        edaAdaptState.numWorkers edaAdaptState.mu edaAdaptState.llambda
        (edaAdaptState.archiveFitness ++ [1]) = some trip →
      ∃ st1, mpcedaInternalTell edaAdaptState [7] 1 = some st1 ∧
        (st1.mu, st1.llambda, st1.archiveFitness) = trip) ∧
    (∀ d w mu llambda archive, (archive : List ℚ).length = 5 * llambda →
       2 ≤ llambda →
      (let first := archive.take llambda
       let last := (archive.drop (4 * llambda)).take llambda
       let z : ℝ := (((first.sum : ℚ) : ℝ) / (llambda : ℝ) -
           ((last.sum : ℚ) : ℝ) / (llambda : ℝ)) /
         Real.sqrt (((popVar first : ℚ) : ℝ) / ((llambda : ℝ) - 1) +
           ((popVar last : ℚ) : ℝ) / ((llambda : ℝ) - 1))
       let rebalance : ℕ → ℕ × ℕ × List ℚ := fun m =>
         if 1 < w then (max (4 * m) w / 4, max (4 * m) w, ([] : List ℚ))
         else (m, 4 * m, ([] : List ℚ))
       (0 < popVar first + popVar last →
         (z < 2 → popSizeAdaptation d w mu llambda archive =
            some (rebalance (2 * mu))) ∧
         (¬ z < 2 → popSizeAdaptation d w mu llambda archive =
            some (rebalance
              (if 21 * mu / 25 < d then d else 21 * mu / 25)))) ∧
       (popVar first = 0 → popVar last = 0 →
         (((first.sum : ℚ) : ℝ) / (llambda : ℝ) <
             ((last.sum : ℚ) : ℝ) / (llambda : ℝ) →
            popSizeAdaptation d w mu llambda archive =
              some (rebalance (2 * mu))) ∧
         (¬ ((first.sum : ℚ) : ℝ) / (llambda : ℝ) <
             ((last.sum : ℚ) : ℝ) / (llambda : ℝ) →
            popSizeAdaptation d w mu llambda archive =
              some (rebalance
                (if 21 * mu / 25 < d then d else 21 * mu / 25)))))) ∧
    (∀ d w mu llambda archive, (archive : List ℚ).length < 5 * llambda →
      popSizeAdaptation d w mu llambda archive =
        some (mu, llambda, archive)) :=
  c3_population_size_adaptation tbpsaAdaptState [7] 1 0 (by decide)
    edaAdaptState [7] 1 0 (by decide) edaAdaptState [7] 1 0 (by decide)

/-- C3, counterexample: on a constant fitness archive (20 values equal to
1, with lambda 4, mu 1, dimension 1, one worker) both fifths have zero
variance.  The source computes z = 0.0 / 0.0 = nan, the comparison
nan < 2. is false, and mu is shrunk: int(0.84 * 1) = 0, floored to the
dimension 1, leaving (mu, lambda) = (1, 4).  The claim's z statistic read
as a real number (with total division, giving z = 0) satisfies z < 2 at
the same input and so demands mu doubled to 2. -/
theorem c3_counterexample :
    popSizeAdaptation 1 1 1 4 (List.replicate 20 1) =
      some (1, 4, ([] : List ℚ)) ∧
    ((((qMean ((List.replicate 20 (1 : ℚ)).take 4) -
        qMean (((List.replicate 20 (1 : ℚ)).drop 16).take 4) : ℚ) : ℝ)) /
      Real.sqrt
        (((popVar ((List.replicate 20 (1 : ℚ)).take 4) : ℚ) : ℝ) /
            ((4 : ℝ) - 1) +
          ((popVar (((List.replicate 20 (1 : ℚ)).drop 16).take 4) : ℚ) :
              ℝ) / ((4 : ℝ) - 1)) < 2) ∧
    (1 : ℕ) ≠ 2 * 1 := by
  have htake : (List.replicate 20 (1 : ℚ)).take 4 = List.replicate 4 1 := by
    simp [List.take_replicate]
  have hdrop : ((List.replicate 20 (1 : ℚ)).drop 16).take 4 =
      List.replicate 4 1 := by
    simp [List.drop_replicate, List.take_replicate]
  have hvar : popVar (List.replicate 4 (1 : ℚ)) = 0 := by
    have : List.replicate 4 (1 : ℚ) = [1, 1, 1, 1] := by
      simp [List.replicate]
    rw [this]
    norm_num [popVar, qMean]
  refine ⟨?_, ?_, by omega⟩
  · have hiff := pfZ_zero_var_lt 4 (List.replicate 4 (1 : ℚ))
      (List.replicate 4 (1 : ℚ)) (by omega) (by simp) (by simp) hvar hvar
    have hnot : ¬ pfLt (pfZ 4 (List.replicate 4 (1 : ℚ))
        (List.replicate 4 (1 : ℚ))) (.fin 2) := by
      rw [hiff]
      exact lt_irrefl _
    have hdrop4 : ((List.replicate 20 (1 : ℚ)).drop (4 * 4)).take 4 =
        List.replicate 4 1 := hdrop
    have hnot4 : ¬ pfLt (pfZ 4 ((List.replicate 20 (1 : ℚ)).take 4)
        (((List.replicate 20 (1 : ℚ)).drop (4 * 4)).take 4)) (.fin 2) := by
      rw [htake, hdrop4]
      exact hnot
    unfold popSizeAdaptation
    rw [if_pos (by norm_num), if_neg (by omega)]
    dsimp only
    rw [if_neg hnot4]
    norm_num
  · rw [htake, hdrop, hvar]
    simp [Real.sqrt_zero]

/-- C4, counterexample: for EDA with dimension 1 (cohort size 4), the tell
completing the cohort {0, 2, 4, 6} sets the covariance entry to 2/3, which
is 0.1 times the sample covariance 20/3 of the full sorted cohort: the
covariance estimate is neither replaced outright by the cohort covariance
nor blended at the 0.9/0.1 rate with the previous (identity) estimate. -/
theorem c4_counterexample :
    ((edaInternalTell edaCohortState [6] 4).map
      (fun s => s.covariance 0 0)) = some (2/3) ∧
    covEntry [[0], [2], [4], [6]] 0 0 = 20/3 ∧
    ((2 : ℚ)/3) ≠ 20/3 ∧
    ((2 : ℚ)/3) ≠ 9/10 * 1 + 1/10 * (20/3) := by
  have hcov : covEntry [[0], [2], [4], [6]] 0 0 = 20/3 := by
    simp [covEntry, colMean]
    norm_num
  refine ⟨?_, hcov, by norm_num, by norm_num⟩
  have hsort : sortCohort [1, 2, 3, 4] [[0], [2], [4], [6]] [1, 1, 1, 1] =
      [(1, [0], 1), (2, [2], 1), (3, [4], 1), (4, [6], 1)] := by
    norm_num [sortCohort, stableSort, insertStable, tripleLe, qListLt]
  simp only [edaInternalTell, edaCohortState]
  norm_num [hsort, hcov]

/-- C4 (amended): in the evolution-strategy family a tell that brings the
evaluated cohort to exactly lambda entries triggers exactly one
re-estimation: the cohort is sorted ascending by (fitness, point, step
size); the center is recomputed as the unweighted mean of the best mu
points; sigma is recomputed as the geometric mean of the best mu step
sizes; EDA - the family member that maintains a covariance estimate -
replaces it by 0.1 times the sample covariance of the full sorted cohort;
and the evaluated cohort ends empty while the told individual has left the
unevaluated cohort.  A tell that leaves the evaluated cohort below lambda
triggers no re-estimation: center, sigma and (for EDA) covariance are
unchanged and the individual is only moved between the cohorts.  TBPSA
behaves identically except that it maintains no covariance estimate (taken
here with its fitness archive below the population-size-adaptation
threshold, so its mu and lambda are also unchanged). -/
theorem c4_cohort_reestimation
    (st : EDAState) (x : List ℚ) (v : ℚ) (idx : ℕ)
    (hidx : st.unevaluatedPopulation.findIdx? (fun p => p == x) = some idx)
    (ts : TBPSAState) (x2 : List ℚ) (v2 : ℚ) (idx2 : ℕ)
    (hidx2 : ts.unevaluatedPopulation.findIdx? (fun p => p == x2) =
      some idx2)
    (harch : ts.archiveFitness.length + 1 < 5 * ts.llambda) :
    ((st.evaluatedPopulation ++ [x]).length = st.llambda →
      (let sorted := sortCohort (st.evaluatedPopulationFitness ++ [v])
         (st.evaluatedPopulation ++ [x])
         (st.evaluatedPopulationSigma ++
           [st.unevaluatedPopulationSigma.getD idx 0])
       let sortedPop := sorted.map (fun t => t.2.1)
       let sortedSig := sorted.map (fun t => t.2.2)
       ∃ st1, edaInternalTell st x v = some st1 ∧
         st1.evaluatedPopulation = [] ∧
         st1.evaluatedPopulationSigma = [] ∧
         st1.evaluatedPopulationFitness = [] ∧
         st1.unevaluatedPopulation =
           st.unevaluatedPopulation.eraseIdx idx ∧
         st1.unevaluatedPopulationSigma =
           st.unevaluatedPopulationSigma.eraseIdx idx ∧
         st1.currentCenter = centerOfBest st.dimension st.mu sortedPop ∧
         st1.sigma = geoMeanSigma st.mu sortedSig ∧
         st1.covariance = fun i j => 0.1 * covEntry sortedPop i j)) ∧
    ((st.evaluatedPopulation ++ [x]).length < st.llambda →
      ∃ st1, edaInternalTell st x v = some st1 ∧
        st1.currentCenter = st.currentCenter ∧ st1.sigma = st.sigma ∧
        st1.covariance = st.covariance ∧
        st1.evaluatedPopulation = st.evaluatedPopulation ++ [x] ∧
        st1.evaluatedPopulationFitness =
          st.evaluatedPopulationFitness ++ [v] ∧
        st1.evaluatedPopulationSigma = st.evaluatedPopulationSigma ++
          [st.unevaluatedPopulationSigma.getD idx 0] ∧
        st1.unevaluatedPopulation =
          st.unevaluatedPopulation.eraseIdx idx) ∧
    ((ts.evaluatedPopulation ++ [x2]).length = ts.llambda →
      (let sorted := sortCohort (ts.evaluatedPopulationFitness ++ [v2])
         (ts.evaluatedPopulation ++ [x2])
         (ts.evaluatedPopulationSigma ++
           [ts.unevaluatedPopulationSigma.getD idx2 0])
       let sortedPop := sorted.map (fun t => t.2.1)
       let sortedSig := sorted.map (fun t => t.2.2)
       ∃ st1, tbpsaInternalTell ts x2 v2 = some st1 ∧
         st1.evaluatedPopulation = [] ∧
         st1.evaluatedPopulationSigma = [] ∧
         st1.evaluatedPopulationFitness = [] ∧
         st1.unevaluatedPopulation =
           ts.unevaluatedPopulation.eraseIdx idx2 ∧
         st1.unevaluatedPopulationSigma =
           ts.unevaluatedPopulationSigma.eraseIdx idx2 ∧
         st1.currentCenter = centerOfBest ts.dimension ts.mu sortedPop ∧
         st1.sigma = geoMeanSigma ts.mu sortedSig ∧
         st1.mu = ts.mu ∧ st1.llambda = ts.llambda ∧
         st1.archiveFitness = ts.archiveFitness ++ [v2])) ∧
    ((ts.evaluatedPopulation ++ [x2]).length < ts.llambda →
      ∃ st1, tbpsaInternalTell ts x2 v2 = some st1 ∧
        st1.currentCenter = ts.currentCenter ∧ st1.sigma = ts.sigma ∧
        st1.mu = ts.mu ∧ st1.llambda = ts.llambda ∧
        st1.evaluatedPopulation = ts.evaluatedPopulation ++ [x2] ∧
        st1.evaluatedPopulationFitness =
          ts.evaluatedPopulationFitness ++ [v2] ∧
        st1.evaluatedPopulationSigma = ts.evaluatedPopulationSigma ++
          [ts.unevaluatedPopulationSigma.getD idx2 0] ∧
        st1.unevaluatedPopulation =
          ts.unevaluatedPopulation.eraseIdx idx2 ∧
        st1.archiveFitness = ts.archiveFitness ++ [v2]) := by
  have hadapt : popSizeAdaptation ts.dimension ts.numWorkers ts.mu
      ts.llambda (ts.archiveFitness ++ [v2]) =
      some (ts.mu, ts.llambda, ts.archiveFitness ++ [v2]) := by
    unfold popSizeAdaptation
    rw [if_neg (by simp only [List.length_append, List.length_cons,
      List.length_nil]; omega)]
  refine ⟨?_, ?_, ?_, ?_⟩
  · intro h
    simp only [edaInternalTell, hidx, Option.bind_eq_bind, Option.some_bind]
    rw [if_pos (le_of_eq h.symm)]
    exact ⟨_, rfl, rfl, rfl, rfl, rfl, rfl, rfl, rfl, rfl⟩
  · intro h
    simp only [edaInternalTell, hidx, Option.bind_eq_bind, Option.some_bind]
    rw [if_neg (by omega)]
    exact ⟨_, rfl, rfl, rfl, rfl, rfl, rfl, rfl, rfl⟩
  · intro h
    simp only [tbpsaInternalTell, hidx2, Option.bind_eq_bind,
      Option.some_bind, hadapt]
    rw [if_pos (le_of_eq h.symm)]
    exact ⟨_, rfl, rfl, rfl, rfl, rfl, rfl, rfl, rfl, rfl, rfl, rfl⟩
  · intro h
    simp only [tbpsaInternalTell, hidx2, Option.bind_eq_bind,
      Option.some_bind, hadapt]
    rw [if_neg (by omega)]
    exact ⟨_, rfl, rfl, rfl, rfl, rfl, rfl, rfl, rfl, rfl, rfl⟩

/-- Witness instantiating the cohort re-estimation theorem at the concrete
states edaCohortState and tbpsaCohortState, telling the pending point [6]
with value 4 (which completes the cohort of 4). -/
theorem c4_cohort_reestimation_witness :
    ((edaCohortState.evaluatedPopulation ++ [[6]]).length =
        edaCohortState.llambda →
      (let sorted := sortCohort
         (edaCohortState.evaluatedPopulationFitness ++ [4])
         (edaCohortState.evaluatedPopulation ++ [[6]])
         (edaCohortState.evaluatedPopulationSigma ++
           [edaCohortState.unevaluatedPopulationSigma.getD 0 0])
       let sortedPop := sorted.map (fun t => t.2.1)
       let sortedSig := sorted.map (fun t => t.2.2)
       ∃ st1, edaInternalTell edaCohortState [6] 4 = some st1 ∧
         st1.evaluatedPopulation = [] ∧
         st1.evaluatedPopulationSigma = [] ∧
         st1.evaluatedPopulationFitness = [] ∧
         st1.unevaluatedPopulation =
           edaCohortState.unevaluatedPopulation.eraseIdx 0 ∧
         st1.unevaluatedPopulationSigma =
           edaCohortState.unevaluatedPopulationSigma.eraseIdx 0 ∧
         st1.currentCenter = centerOfBest edaCohortState.dimension
           edaCohortState.mu sortedPop ∧
         st1.sigma = geoMeanSigma edaCohortState.mu sortedSig ∧
         st1.covariance = fun i j => 0.1 * covEntry sortedPop i j)) ∧
    ((edaCohortState.evaluatedPopulation ++ [[6]]).length <
        edaCohortState.llambda →
      ∃ st1, edaInternalTell edaCohortState [6] 4 = some st1 ∧
        st1.currentCenter = edaCohortState.currentCenter ∧
        st1.sigma = edaCohortState.sigma ∧
        st1.covariance = edaCohortState.covariance ∧
        st1.evaluatedPopulation =
          edaCohortState.evaluatedPopulation ++ [[6]] ∧
        st1.evaluatedPopulationFitness =
          edaCohortState.evaluatedPopulationFitness ++ [4] ∧
        st1.evaluatedPopulationSigma =
          edaCohortState.evaluatedPopulationSigma ++
            [edaCohortState.unevaluatedPopulationSigma.getD 0 0] ∧
        st1.unevaluatedPopulation =
          edaCohortState.unevaluatedPopulation.eraseIdx 0) ∧
    ((tbpsaCohortState.evaluatedPopulation ++ [[6]]).length =
        tbpsaCohortState.llambda →
      (let sorted := sortCohort
         (tbpsaCohortState.evaluatedPopulationFitness ++ [4])
         (tbpsaCohortState.evaluatedPopulation ++ [[6]])
         (tbpsaCohortState.evaluatedPopulationSigma ++
           [tbpsaCohortState.unevaluatedPopulationSigma.getD 0 0])
       let sortedPop := sorted.map (fun t => t.2.1)
       let sortedSig := sorted.map (fun t => t.2.2)
       ∃ st1, tbpsaInternalTell tbpsaCohortState [6] 4 = some st1 ∧
         st1.evaluatedPopulation = [] ∧
         st1.evaluatedPopulationSigma = [] ∧
         st1.evaluatedPopulationFitness = [] ∧
         st1.unevaluatedPopulation =
           tbpsaCohortState.unevaluatedPopulation.eraseIdx 0 ∧
         st1.unevaluatedPopulationSigma =
           tbpsaCohortState.unevaluatedPopulationSigma.eraseIdx 0 ∧
         st1.currentCenter = centerOfBest tbpsaCohortState.dimension
           tbpsaCohortState.mu sortedPop ∧
         st1.sigma = geoMeanSigma tbpsaCohortState.mu sortedSig ∧
         st1.mu = tbpsaCohortState.mu ∧
         st1.llambda = tbpsaCohortState.llambda ∧
         st1.archiveFitness = tbpsaCohortState.archiveFitness ++ [4])) ∧
    ((tbpsaCohortState.evaluatedPopulation ++ [[6]]).length <
        tbpsaCohortState.llambda →
      ∃ st1, tbpsaInternalTell tbpsaCohortState [6] 4 = some st1 ∧
        st1.currentCenter = tbpsaCohortState.currentCenter ∧
        st1.sigma = tbpsaCohortState.sigma ∧
        st1.mu = tbpsaCohortState.mu ∧
        st1.llambda = tbpsaCohortState.llambda ∧
        st1.evaluatedPopulation =
          tbpsaCohortState.evaluatedPopulation ++ [[6]] ∧
        st1.evaluatedPopulationFitness =
          tbpsaCohortState.evaluatedPopulationFitness ++ [4] ∧
        st1.evaluatedPopulationSigma =
          tbpsaCohortState.evaluatedPopulationSigma ++
            [tbpsaCohortState.unevaluatedPopulationSigma.getD 0 0] ∧
        st1.unevaluatedPopulation =
          tbpsaCohortState.unevaluatedPopulation.eraseIdx 0 ∧
        st1.archiveFitness = tbpsaCohortState.archiveFitness ++ [4]) :=
  c4_cohort_reestimation edaCohortState [6] 4 0 (by decide)
    tbpsaCohortState [6] 4 0 (by decide) (by decide)
